import Mathlib

/-!
Identity service: authentication and session lifecycle.

A shallow embedding of `internal/usecase/auth_usecase.go`, of `CreateRole` and
`DeleteRole` of `internal/usecase/role_usecase.go`, and of
`internal/delivery/http/auth_handler.go` and `middleware.go`.

* The storage collaborator `repository.Store` is a Go interface; it is embedded
  as a record of operations over an arbitrary state type `σ`. Every operation
  takes the store state and returns its Go result together with the next
  store state, so a use case is a function `σ → result × σ`.
* Library calls with no source in the repository (`bcrypt`, `jwt`, `idtoken`,
  `time.Now`) are fields of `Runtime`.
* Go `error` values are compared by their message. A call that returns an
  error returns the zero value beside it, so a result is an `Except`.
* Identifiers are `int32` in Go; no arithmetic is done on them, they are `Int`.
-/

/-! ## Go library types -/

/-- Go `error`, identified with the text `Error()` returns. -/
structure GoError where
  msg : String
deriving DecidableEq, Repr

/-- Go `errors.New`. -/
def errors.New (text : String) : GoError := ⟨text⟩

/-- Go `pgtype.Text`: a nullable text column. -/
structure pgtype.Text where
  String : String
  Valid : Bool
deriving DecidableEq, Repr

/-- Go `pgtype.Int4`: a nullable 32-bit integer column. -/
structure pgtype.Int4 where
  Int32 : Int
  Valid : Bool
deriving DecidableEq, Repr

/-- Go `pgtype.Bool`: a nullable boolean column. The type is named `PgBool`
here because `pgtype.Bool` would shadow Lean's `Bool` inside the namespace. -/
structure pgtype.PgBool where
  Valid : Bool
  Bool : Bool
deriving DecidableEq, Repr

/-- Go `time.Time`, as nanoseconds since the Unix epoch. -/
structure time.Time where
  nanos : Int
deriving DecidableEq, Repr

/-- Go `time.Duration` is a count of nanoseconds. -/
abbrev time.Duration := Int

def time.Second : time.Duration := 1000000000
def time.Minute : time.Duration := 60 * time.Second
def time.Hour : time.Duration := 60 * time.Minute

/-- Go `Time.Add`. -/
def time.Time.Add (t : time.Time) (d : time.Duration) : time.Time := ⟨t.nanos + d⟩

/-- Go `Time.UnixNano`. -/
def time.Time.UnixNano (t : time.Time) : Int := t.nanos

/-- Go `Time.Unix`: whole seconds since the epoch (rounded down). -/
def time.Time.Unix (t : time.Time) : Int := Int.fdiv t.nanos 1000000000

/-- Go `pgtype.Timestamptz`. -/
structure pgtype.Timestamptz where
  Time : time.Time
  Valid : Bool
deriving DecidableEq, Repr

/-- Go `jwt.MapClaims`, with the four keys `generateTokens` sets. -/
structure jwt.MapClaims where
  userId : Int
  sub : String
  permissions : List String
  exp : Int
deriving DecidableEq, Repr

/-- Go `idtoken.Payload`; `Claims` holds the string-valued claims, absent keys
and keys of another type are `none` (what the `.(string)` assertion tests). -/
structure idtoken.Payload where
  Claims : String → Option String

/-! ## Repository types

`repository.Querier` and its row and parameter structs are generated code that
is not part of the sources; the records below carry the fields the use cases
read or write. -/

/-- Go `repository.User`. -/
structure repository.User where
  ID : Int
  Username : String
  PasswordHash : pgtype.Text
  FullName : String
  Email : pgtype.Text
  Phone : pgtype.Text
  Avatar : pgtype.Text
  Status : pgtype.Text
  RoleID : pgtype.Int4
  ExternalLogin : pgtype.PgBool
  LastLoginAt : pgtype.Timestamptz
  LastLoginIp : pgtype.Text
deriving DecidableEq, Repr

/-- Go `repository.Role`. -/
structure repository.Role where
  ID : Int
  Code : String
  Name : String
  Description : pgtype.Text
  Level : pgtype.Int4
  IsSystem : pgtype.PgBool
  Status : pgtype.Text
deriving DecidableEq, Repr

/-- Go `repository.GetUserPermissionsRow`: one role-permission row of a user. -/
structure repository.GetUserPermissionsRow where
  PermissionID : Int
  PermissionCode : String
  DataScope : pgtype.Text
deriving DecidableEq, Repr

/-- Go `repository.RefreshToken`: token value, owner, expiry, revocation state. -/
structure repository.RefreshToken where
  Token : String
  UserID : Int
  ExpiresAt : pgtype.Timestamptz
  Revoked : Bool
deriving DecidableEq, Repr

/-- Go `repository.CreateRefreshTokenParams`. -/
structure repository.CreateRefreshTokenParams where
  UserID : Int
  Token : String
  ExpiresAt : pgtype.Timestamptz
deriving DecidableEq, Repr

/-- Go `repository.CreateUserParams`. -/
structure repository.CreateUserParams where
  Username : String
  PasswordHash : pgtype.Text
  FullName : String
  Email : pgtype.Text
  Phone : pgtype.Text
  Avatar : pgtype.Text
  RoleID : pgtype.Int4
  Status : pgtype.Text
deriving DecidableEq, Repr

/-- Go `repository.UpdateUserLastLoginParams`. -/
structure repository.UpdateUserLastLoginParams where
  ID : Int
  LastLoginIp : pgtype.Text
deriving DecidableEq, Repr

/-- Go `repository.UpdateUserExternalLoginParams`. -/
structure repository.UpdateUserExternalLoginParams where
  ID : Int
  ExternalLogin : pgtype.PgBool
deriving DecidableEq, Repr

/-- Go `repository.CreateRoleParams`. -/
structure repository.CreateRoleParams where
  Code : String
  Name : String
  Description : pgtype.Text
  Level : pgtype.Int4
  IsSystem : pgtype.PgBool
  Status : pgtype.Text
deriving DecidableEq, Repr

/-- A store call on state `σ`: the Go result and the store state afterwards. -/
abbrev repository.Call (σ α : Type) := σ → Except GoError α × σ

/-- Go `repository.Store` (the `Querier` interface), with the methods the
authentication and role use cases call. -/
structure repository.Store (σ : Type) where
  GetUserByUsername : String → repository.Call σ repository.User
  GetUserByEmail : pgtype.Text → repository.Call σ repository.User
  GetUserById : Int → repository.Call σ repository.User
  CreateUser : repository.CreateUserParams → repository.Call σ repository.User
  UpdateUserLastLogin : repository.UpdateUserLastLoginParams → repository.Call σ Unit
  UpdateUserExternalLogin : repository.UpdateUserExternalLoginParams → repository.Call σ Unit
  GetUserPermissions : Int → repository.Call σ (List repository.GetUserPermissionsRow)
  GetRoleById : Int → repository.Call σ repository.Role
  CreateRefreshToken : repository.CreateRefreshTokenParams → repository.Call σ repository.RefreshToken
  GetRefreshToken : String → repository.Call σ repository.RefreshToken
  RevokeRefreshToken : String → repository.Call σ Unit
  CreateRole : repository.CreateRoleParams → repository.Call σ repository.Role
  DeleteRole : Int → repository.Call σ Unit

/-! ## Configuration and runtime -/

/-- Go `config.Config`. -/
structure config.Config where
  ServiceName : String
  Port : String
  InternalAPIKey : String
  DatabaseURL : String
  JWTSecret : String
  GoogleClientID : String
  JWTExpiresIn : String
  RefreshTokenExpiry : String
deriving DecidableEq, Repr

/-- The library functions the use case calls.
* `CompareHashAndPassword hash password` is bcrypt's comparison: `none` is Go's
  `nil` error (the password matches), `some e` a mismatch or hashing error.
* `SignedString claims key` is `jwt.NewWithClaims(HS256, claims).SignedString(key)`.
* `Validate idToken audience` is `idtoken.Validate`.
* `Now n` is the value of the `n`-th `time.Now()` evaluated by one use-case call. -/
structure Runtime where
  CompareHashAndPassword : String → String → Option GoError
  SignedString : jwt.MapClaims → String → Except GoError String
  Validate : String → String → Except GoError idtoken.Payload
  Now : Nat → time.Time

/-! ## `internal/usecase/auth_usecase.go` -/

namespace usecase

/-- Go `usecase.authUseCase`: the store and the configuration, with the runtime. -/
structure authUseCase (σ : Type) where
  store : repository.Store σ
  config : config.Config
  rt : Runtime

/-- Go `usecase.UserResponse`; a `*string` is an `Option String`. -/
structure UserResponse where
  ID : Int
  Username : String
  FullName : String
  Avatar : Option String
  Email : Option String
  Role : String
  Permissions : List String
deriving DecidableEq, Repr

/-- Go `usecase.LoginResponse`. -/
structure LoginResponse where
  AccessToken : String
  RefreshToken : String
  User : UserResponse
deriving DecidableEq, Repr

/-- Go `stringPtr`. -/
def stringPtr (s : String) (valid : Bool) : Option String :=
  if !valid then none else some s

/-- The loop `for _, p := range perms { permissions = append(permissions, p.PermissionCode) }`. -/
def permissionCodes (perms : List repository.GetUserPermissionsRow) : List String :=
  perms.map (fun p => p.PermissionCode)

/-- The permission list a use case builds from the result of
`store.GetUserPermissions(ctx, id)`: the codes of the rows, or the empty (`nil`)
slice when the lookup returned an error (the loop is then skipped, or runs
over the `nil` slice the error leaves in `perms`). -/
def permissionsOf (r : Except GoError (List repository.GetUserPermissionsRow)) : List String :=
  match r with
  | .ok perms => permissionCodes perms
  | .error _ => []

/-- The claims `generateTokens` signs. -/
def accessClaims (user : repository.User) (permissions : List String) (now : time.Time) :
    jwt.MapClaims :=
  { userId := user.ID
    sub := user.Username
    permissions := permissions
    exp := (now.Add (15 * time.Minute)).Unix }

/-- The refresh token string: `fmt.Sprintf("%d-%d", user.ID, time.Now().UnixNano())`. -/
def refreshTokenString (user : repository.User) (now : time.Time) : String :=
  toString user.ID ++ "-" ++ toString now.UnixNano

/-- The parameters `generateTokens` passes to `CreateRefreshToken`. -/
def refreshTokenParams (user : repository.User) (tokenNow expiryNow : time.Time) :
    repository.CreateRefreshTokenParams :=
  { UserID := user.ID
    Token := refreshTokenString user tokenNow
    ExpiresAt := { Time := expiryNow.Add (7 * 24 * time.Hour), Valid := true } }

/-- Go `authUseCase.generateTokens`: the access token and the refresh token. -/
def authUseCase.generateTokens {σ : Type} (u : authUseCase σ) (user : repository.User) (st : σ) :
    Except GoError (String × String) × σ :=
  -- 1. Get Permissions
  match u.store.GetUserPermissions user.ID st with
  | (perms, st1) =>
    let permissions := permissionsOf perms
    -- 2. Access Token
    let claims := accessClaims user permissions (u.rt.Now 0)
    match u.rt.SignedString claims u.config.JWTSecret with
    | .error err => (.error err, st1)
    | .ok accessToken =>
      -- 3. Refresh Token
      let refreshTokenStr := refreshTokenString user (u.rt.Now 1)
      match u.store.CreateRefreshToken (refreshTokenParams user (u.rt.Now 1) (u.rt.Now 2)) st1 with
      | (.error err, st2) => (.error err, st2)
      | (.ok _, st2) => (.ok (accessToken, refreshTokenStr), st2)

/-- The role code a use case reports: `""` unless the user has a role and
`GetRoleById` succeeds. -/
def authUseCase.roleCodeOf {σ : Type} (u : authUseCase σ) (user : repository.User) (st : σ) :
    String × σ :=
  if user.RoleID.Valid then
    match u.store.GetRoleById user.RoleID.Int32 st with
    | (.ok role, st1) => (role.Code, st1)
    | (.error _, st1) => ("", st1)
  else ("", st)

/-- The `LoginResponse` literal the three use cases return. -/
def loginResponse (accessToken refreshToken : String) (user : repository.User)
    (roleCode : String) (permissions : List String) : LoginResponse :=
  { AccessToken := accessToken
    RefreshToken := refreshToken
    User :=
      { ID := user.ID
        Username := user.Username
        FullName := user.FullName
        Avatar := stringPtr user.Avatar.String user.Avatar.Valid
        Email := stringPtr user.Email.String user.Email.Valid
        Role := roleCode
        Permissions := permissions } }

/-- Go `authUseCase.Login`. -/
def authUseCase.Login {σ : Type} (u : authUseCase σ) (username password : String) (st : σ) :
    Except GoError LoginResponse × σ :=
  -- 1. Get User
  match u.store.GetUserByUsername username st with
  | (.error _, st1) => (.error (errors.New "invalid credentials"), st1)
  | (.ok user, st1) =>
    -- 2. Verify Password
    if user.PasswordHash.Valid then
      match u.rt.CompareHashAndPassword user.PasswordHash.String password with
      | some _ => (.error (errors.New "invalid credentials"), st1)
      | none =>
        -- 3. Get Permissions
        match u.store.GetUserPermissions user.ID st1 with
        | (perms, st2) =>
          let permissions := permissionsOf perms
          -- 4. Generate Token
          match u.generateTokens user st2 with
          | (.error err, st3) => (.error err, st3)
          | (.ok (accessToken, refreshToken), st3) =>
            -- 4. Update Last Login
            match u.store.UpdateUserLastLogin
                { ID := user.ID, LastLoginIp := { String := "", Valid := false } } st3 with
            | (_, st4) =>
              -- 5. Get Role Code
              match u.roleCodeOf user st4 with
              | (roleCode, st5) =>
                (.ok (loginResponse accessToken refreshToken user roleCode permissions), st5)
    else
      -- External login or no password
      (.error (errors.New "password not set"), st1)

/-- Go `authUseCase.Refresh`. -/
def authUseCase.Refresh {σ : Type} (u : authUseCase σ) (refreshTokenStr : String) (st : σ) :
    Except GoError LoginResponse × σ :=
  -- 1. Verify Refresh Token in DB
  match u.store.GetRefreshToken refreshTokenStr st with
  | (.error _, st1) => (.error (errors.New "invalid or expired refresh token"), st1)
  | (.ok rt, st1) =>
    -- 2. Get User
    match u.store.GetUserById rt.UserID st1 with
    | (.error _, st2) => (.error (errors.New "user not found"), st2)
    | (.ok user, st2) =>
      -- 3. Revoke current token
      match u.store.RevokeRefreshToken refreshTokenStr st2 with
      | (_, st3) =>
        -- 4. Generate new tokens
        match u.generateTokens user st3 with
        | (.error err, st4) => (.error err, st4)
        | (.ok (accessToken, newRefreshToken), st4) =>
          -- 5. Get Permissions & Role
          match u.store.GetUserPermissions user.ID st4 with
          | (perms, st5) =>
            let permissions := permissionsOf perms
            match u.roleCodeOf user st5 with
            | (roleCode, st6) =>
              (.ok (loginResponse accessToken newRefreshToken user roleCode permissions), st6)

/-- The string a `.(string)` assertion on `payload.Claims[key]` yields. -/
def claimString (payload : idtoken.Payload) (key : String) : String :=
  (payload.Claims key).getD ""

/-- The parameters `LoginGoogle` passes to `CreateUser` for an unseen email:
the email as username, no password hash, status "ACTIVE". -/
def googleUserParams (payload : idtoken.Payload) : repository.CreateUserParams :=
  { Username := claimString payload "email"
    PasswordHash := { String := "", Valid := false }
    FullName := claimString payload "name"
    Email := { String := claimString payload "email", Valid := true }
    Phone := { String := "", Valid := false }
    Avatar := { String := claimString payload "picture", Valid := true }
    RoleID := { Int32 := 0, Valid := false }
    Status := { String := "ACTIVE", Valid := true } }

/-- Step 2 of `LoginGoogle`: the user with the asserted email, created (and
then flagged as an external login) when the lookup by email fails. -/
def authUseCase.findOrCreateGoogleUser {σ : Type} (u : authUseCase σ) (payload : idtoken.Payload)
    (st : σ) : Except GoError repository.User × σ :=
  -- 2. Check if user exists
  match u.store.GetUserByEmail { String := claimString payload "email", Valid := true } st with
  | (.ok user, st1) => (.ok user, st1)
  | (.error _, st1) =>
    -- Create user if not found
    match u.store.CreateUser (googleUserParams payload) st1 with
    | (.error err, st2) => (.error err, st2)
    | (.ok user, st2) =>
      -- Set as external login
      match u.store.UpdateUserExternalLogin
          { ID := user.ID, ExternalLogin := { Bool := true, Valid := true } } st2 with
      | (_, st3) => (.ok user, st3)

/-- Go `authUseCase.LoginGoogle`. -/
def authUseCase.LoginGoogle {σ : Type} (u : authUseCase σ) (idTokenStr : String) (st : σ) :
    Except GoError LoginResponse × σ :=
  -- 1. Verify Google Token
  match u.rt.Validate idTokenStr u.config.GoogleClientID with
  | .error _ => (.error (errors.New "invalid google token"), st)
  | .ok payload =>
    match u.findOrCreateGoogleUser payload st with
    | (.error err, st3) => (.error err, st3)
    | (.ok user, st3) =>
      -- 3. Generate Tokens
      match u.generateTokens user st3 with
      | (.error err, st4) => (.error err, st4)
      | (.ok (accessToken, refreshToken), st4) =>
        -- 5. Update Last Login
        match u.store.UpdateUserLastLogin
            { ID := user.ID, LastLoginIp := { String := "", Valid := false } } st4 with
        | (_, st5) =>
          -- 6. Get Permissions & Role
          match u.store.GetUserPermissions user.ID st5 with
          | (perms, st6) =>
            let permissions := permissionsOf perms
            match u.roleCodeOf user st6 with
            | (roleCode, st7) =>
              (.ok (loginResponse accessToken refreshToken user roleCode permissions), st7)

/-- Steps 1 and 2 of `Refresh`: the lookup of the presented token and of its
owner. These are the store calls a `Refresh` makes before it revokes. -/
def authUseCase.refreshLookup {σ : Type} (u : authUseCase σ) (refreshTokenStr : String) (st : σ) :
    Except GoError repository.User × σ :=
  -- 1. Verify Refresh Token in DB
  match u.store.GetRefreshToken refreshTokenStr st with
  | (.error _, st1) => (.error (errors.New "invalid or expired refresh token"), st1)
  | (.ok rt, st1) =>
    -- 2. Get User
    match u.store.GetUserById rt.UserID st1 with
    | (.error _, st2) => (.error (errors.New "user not found"), st2)
    | (.ok user, st2) => (.ok user, st2)

/-- Steps 3 to 5 of `Refresh`: revoke, issue, build the response. -/
def authUseCase.refreshRotate {σ : Type} (u : authUseCase σ) (refreshTokenStr : String)
    (user : repository.User) (st2 : σ) : Except GoError LoginResponse × σ :=
  -- 3. Revoke current token
  match u.store.RevokeRefreshToken refreshTokenStr st2 with
  | (_, st3) =>
    -- 4. Generate new tokens
    match u.generateTokens user st3 with
    | (.error err, st4) => (.error err, st4)
    | (.ok (accessToken, newRefreshToken), st4) =>
      -- 5. Get Permissions & Role
      match u.store.GetUserPermissions user.ID st4 with
      | (perms, st5) =>
        let permissions := permissionsOf perms
        match u.roleCodeOf user st5 with
        | (roleCode, st6) =>
          (.ok (loginResponse accessToken newRefreshToken user roleCode permissions), st6)

/-- Two `Refresh` calls `a` and `b` running at the same time on one store, in
the schedule where both make their lookups (steps 1 and 2) before either
revokes: the lookups of `a`, the lookups of `b`, then the remaining steps of
`a`, then those of `b`. Each store call is one indivisible step; the result is
what each caller gets and the final store state. -/
def refreshRace {σ : Type} (a b : authUseCase σ) (tokenA tokenB : String) (st : σ) :
    Except GoError LoginResponse × Except GoError LoginResponse × σ :=
  match a.refreshLookup tokenA st with
  | (lookedUpA, st1) =>
    match b.refreshLookup tokenB st1 with
    | (lookedUpB, st2) =>
      let doneA : Except GoError LoginResponse × σ :=
        match lookedUpA with
        | .error err => (.error err, st2)
        | .ok user => a.refreshRotate tokenA user st2
      let doneB : Except GoError LoginResponse × σ :=
        match lookedUpB with
        | .error err => (.error err, doneA.2)
        | .ok user => b.refreshRotate tokenB user doneA.2
      (doneA.1, doneB.1, doneB.2)

/-- Go `NewAuthUseCase`, with the runtime the use case runs in. -/
def NewAuthUseCase {σ : Type} (store : repository.Store σ) (cfg : config.Config) (rt : Runtime) :
    authUseCase σ :=
  { store := store, config := cfg, rt := rt }

end usecase

/-! ## `internal/usecase/role_usecase.go` -/

namespace usecase

/-- Go `usecase.roleUseCase`. -/
structure roleUseCase (σ : Type) where
  store : repository.Store σ

/-- Go `NewRoleUseCase`. -/
def NewRoleUseCase {σ : Type} (store : repository.Store σ) : roleUseCase σ :=
  { store := store }

/-- Go `usecase.PermissionResponse`. -/
structure PermissionResponse where
  ID : Int
  Module : String
  Action : String
  Code : String
  Name : String
deriving DecidableEq, Repr

/-- Go `usecase.RolePermissionResponse`. -/
structure RolePermissionResponse where
  ID : Int
  RoleID : Int
  PermissionID : Int
  Permission : Option PermissionResponse
  DataScope : String
deriving DecidableEq, Repr

/-- Go `usecase.RoleResponse`. -/
structure RoleResponse where
  ID : Int
  Code : String
  Name : String
  Description : Option String
  Level : Int
  IsSystem : Bool
  Status : String
  Permissions : List RolePermissionResponse
deriving DecidableEq, Repr

/-- Go `usecase.CreateRoleRequest`; a pointer field is an `Option`. -/
structure CreateRoleRequest where
  Code : String
  Name : String
  Description : Option String
  Level : Option Int
  Status : Option String
deriving DecidableEq, Repr

/-- Go `getString`. -/
def getString (s : Option String) : String :=
  match s with
  | none => ""
  | some v => v

/-- Go `roleUseCase.mapRoleToResponse`. -/
def roleUseCase.mapRoleToResponse (r : repository.Role) : RoleResponse :=
  { ID := r.ID
    Code := r.Code
    Name := r.Name
    Description := stringPtr r.Description.String r.Description.Valid
    Level := r.Level.Int32
    IsSystem := r.IsSystem.Bool
    Status := r.Status.String
    Permissions := [] }

/-- The parameters `CreateRole` passes to the store. -/
def createRoleParams (req : CreateRoleRequest) : repository.CreateRoleParams :=
  let level : Int := match req.Level with
    | some l => l
    | none => 100
  let status : String := match req.Status with
    | some s => s
    | none => "ACTIVE"
  { Code := req.Code
    Name := req.Name
    Description := { String := getString req.Description, Valid := req.Description.isSome }
    Level := { Int32 := level, Valid := true }
    IsSystem := { Bool := false, Valid := true }
    Status := { String := status, Valid := true } }

/-- Go `roleUseCase.CreateRole`. -/
def roleUseCase.CreateRole {σ : Type} (u : roleUseCase σ) (req : CreateRoleRequest) (st : σ) :
    Except GoError RoleResponse × σ :=
  match u.store.CreateRole (createRoleParams req) st with
  | (.error err, st1) => (.error err, st1)
  | (.ok r, st1) => (.ok (roleUseCase.mapRoleToResponse r), st1)

/-- Go `roleUseCase.DeleteRole`: it returns what the store returns. -/
def roleUseCase.DeleteRole {σ : Type} (u : roleUseCase σ) (id : Int) (st : σ) :
    Except GoError Unit × σ :=
  u.store.DeleteRole id st

end usecase

/-! ## `internal/delivery/http/auth_handler.go` -/

namespace http

def StatusOK : Nat := 200
def StatusBadRequest : Nat := 400
def StatusUnauthorized : Nat := 401
def StatusForbidden : Nat := 403

/-- Go `http.SameSite`. -/
inductive SameSite where
  | SameSiteDefaultMode
  | SameSiteLaxMode
  | SameSiteStrictMode
  | SameSiteNoneMode
deriving DecidableEq, Repr

/-- Go `http.Cookie`, with the fields the handlers set. -/
structure Cookie where
  Name : String
  Value : String
  Path : String
  MaxAge : Int
  HttpOnly : Bool
  Secure : Bool
  SameSite : SameSite
deriving DecidableEq, Repr

/-- What a handler writes as the response body, before encoding:
nothing, the text of `http.Error`, the JSON object `{"error": msg}`, or the
JSON encoding of a `LoginResponse`. -/
inductive Body where
  | empty
  | text (s : String)
  | errorJSON (msg : String)
  | loginJSON (resp : usecase.LoginResponse)
deriving DecidableEq, Repr

/-- What a handler leaves in its `http.ResponseWriter`. -/
structure Response where
  Status : Nat
  ContentType : String
  Cookies : List Cookie
  Body : Body
deriving DecidableEq, Repr

/-- An `*http.Request` as the handlers read it: the URL path, `Header.Get`,
`Cookie(name)` (`none` when there is no such cookie) and the result of
decoding the JSON body into a struct of string fields (`none` when decoding
fails, otherwise the value of each key, `""` for a missing one). -/
structure Request where
  Path : String
  Header : String → String
  Cookie : String → Option String
  Body : Option (String → String)

/-- Go `AuthHandler`. -/
structure AuthHandler (σ : Type) where
  authUsecase : usecase.authUseCase σ

/-- Go `AuthHandler.setTokenCookie`. -/
def AuthHandler.setTokenCookie (token : String) : Cookie :=
  { Name := "refreshToken"
    Value := token
    Path := "/"
    MaxAge := 604800
    HttpOnly := true
    Secure := false
    SameSite := .SameSiteLaxMode }

/-- The response of a handler whose use case call returned `r`: 401 with the
error text on failure, the token cookie and the session on success. -/
def AuthHandler.respond (r : Except GoError usecase.LoginResponse) : Response :=
  match r with
  | .error err =>
    { Status := StatusUnauthorized, ContentType := "application/json", Cookies := []
      Body := .errorJSON err.msg }
  | .ok resp =>
    { Status := StatusOK, ContentType := "application/json"
      Cookies := [AuthHandler.setTokenCookie resp.RefreshToken]
      Body := .loginJSON resp }

/-- Go `http.Error(w, msg, code)`. -/
def Error (msg : String) (code : Nat) : Response :=
  { Status := code, ContentType := "text/plain; charset=utf-8", Cookies := [], Body := .text msg }

/-- Go `AuthHandler.Login`. -/
def AuthHandler.Login {σ : Type} (h : AuthHandler σ) (r : Request) (st : σ) : Response × σ :=
  match r.Body with
  | none => (Error "Invalid request body" StatusBadRequest, st)
  | some req =>
    match h.authUsecase.Login (req "username") (req "password") st with
    | (res, st1) => (AuthHandler.respond res, st1)

/-- Go `AuthHandler.LoginGoogle`. -/
def AuthHandler.LoginGoogle {σ : Type} (h : AuthHandler σ) (r : Request) (st : σ) : Response × σ :=
  match r.Body with
  | none => (Error "Invalid request body" StatusBadRequest, st)
  | some req =>
    let token := if req "idToken" == "" then req "token" else req "idToken"
    match h.authUsecase.LoginGoogle token st with
    | (res, st1) => (AuthHandler.respond res, st1)

/-- Go `AuthHandler.Refresh`: the token comes from the cookie, else from the body. -/
def AuthHandler.Refresh {σ : Type} (h : AuthHandler σ) (r : Request) (st : σ) : Response × σ :=
  -- 1. Try to get from cookie
  let fromCookie := (r.Cookie "refreshToken").getD ""
  -- 2. Fallback to body if not in cookie
  let refreshToken :=
    if fromCookie == "" then
      match r.Body with
      | some req => req "refreshToken"
      | none => ""
    else fromCookie
  if refreshToken == "" then
    ({ Status := StatusBadRequest, ContentType := "application/json", Cookies := []
       Body := .errorJSON "Refresh token required" }, st)
  else
    match h.authUsecase.Refresh refreshToken st with
    | (res, st1) => (AuthHandler.respond res, st1)

/-- Go `AuthHandler.Logout`: it expires the cookie and answers 200; the handler
makes no call on the use case or the store. -/
def AuthHandler.Logout {σ : Type} (_h : AuthHandler σ) (_r : Request) (st : σ) : Response × σ :=
  ({ Status := StatusOK
     ContentType := ""
     Cookies := [{ Name := "refreshToken", Value := "", Path := "/", MaxAge := -1
                   HttpOnly := true, Secure := false, SameSite := .SameSiteLaxMode }]
     Body := .empty }, st)

/-! ### `internal/delivery/http/middleware.go` -/

/-- Go `http.Handler` over store state `σ`: `ServeHTTP` as a function of the
request and the state. -/
abbrev Handler (σ : Type) := Request → σ → Response × σ

/-- Go `InternalAPIKeyMiddleware`. -/
def InternalAPIKeyMiddleware {σ : Type} (apiKey : String) (next : Handler σ) : Handler σ :=
  fun r st =>
    -- Skip for health check
    if r.Path == "/health" then next r st
    else
      let key := r.Header "X-Internal-API-Key"
      if key != apiKey then (Error "Forbidden: Invalid Internal API Key" StatusForbidden, st)
      else next r st

end http

/-! ## The storage collaborator

The queries behind `repository.Store` are not part of the sources. `DB` and
`dbStore` give them the meaning the specification states for the storage
operations; `Store.failing…` wrap a store so that one operation reports a
storage error. -/

namespace repository

/-- Modelled from the spec: the persistent store behind `repository.Store`
(its schema and queries are not in the sources). It holds the user, role,
role-permission and refresh-token rows of the data model, and the database
clock the expiry of a refresh token is compared with. -/
structure DB where
  users : List User
  roles : List Role
  rolePermissions : List (Int × GetUserPermissionsRow)
  refreshTokens : List RefreshToken
  now : time.Time
deriving DecidableEq, Repr

/-- The error of a query that finds no row. -/
def ErrNoRows : GoError := errors.New "no rows in result set"

/-- The error of an insert that breaks a uniqueness constraint. -/
def ErrDuplicateKey : GoError := errors.New "duplicate key value violates unique constraint"

/-- The result of a single-row query. -/
def oneRow {α : Type} (row : Option α) (db : DB) : Except GoError α × DB :=
  match row with
  | some r => (.ok r, db)
  | none => (.error ErrNoRows, db)

/-- Modelled from the spec: "fetch user by username" (usernames are unique). -/
def DB.GetUserByUsername (username : String) (db : DB) : Except GoError User × DB :=
  oneRow (db.users.find? (fun usr => usr.Username == username)) db

/-- Modelled from the spec: "fetch user by email"; a null email matches nothing. -/
def DB.GetUserByEmail (email : pgtype.Text) (db : DB) : Except GoError User × DB :=
  oneRow (db.users.find? (fun usr => email.Valid && usr.Email.Valid && usr.Email.String == email.String)) db

/-- Modelled from the spec: "fetch user by identifier". -/
def DB.GetUserById (id : Int) (db : DB) : Except GoError User × DB :=
  oneRow (db.users.find? (fun usr => usr.ID == id)) db

/-- Modelled from the spec: "fetch role by identifier". -/
def DB.GetRoleById (id : Int) (db : DB) : Except GoError Role × DB :=
  oneRow (db.roles.find? (fun role => role.ID == id)) db

/-- Modelled from the spec, section 4.2: "fetch the user's role; if none
assigned, return the empty set. Fetch all role-permission rows for that role". -/
def DB.GetUserPermissions (userID : Int) (db : DB) :
    Except GoError (List GetUserPermissionsRow) × DB :=
  match db.users.find? (fun usr => usr.ID == userID) with
  | none => (.ok [], db)
  | some usr =>
    if usr.RoleID.Valid then
      (.ok ((db.rolePermissions.filter (fun rp => rp.1 == usr.RoleID.Int32)).map (fun rp => rp.2)), db)
    else (.ok [], db)

/-- The identifier a new row gets: one more than the largest in use. -/
def nextID (ids : List Int) : Int := ids.foldl max 0 + 1

/-- Modelled from the spec: "create user"; the username is unique. -/
def DB.CreateUser (arg : CreateUserParams) (db : DB) : Except GoError User × DB :=
  if db.users.any (fun usr => usr.Username == arg.Username) then (.error ErrDuplicateKey, db)
  else
    let usr : User :=
      { ID := nextID (db.users.map (fun x => x.ID))
        Username := arg.Username
        PasswordHash := arg.PasswordHash
        FullName := arg.FullName
        Email := arg.Email
        Phone := arg.Phone
        Avatar := arg.Avatar
        Status := arg.Status
        RoleID := arg.RoleID
        ExternalLogin := { Bool := false, Valid := false }
        LastLoginAt := { Time := ⟨0⟩, Valid := false }
        LastLoginIp := { String := "", Valid := false } }
    (.ok usr, { db with users := db.users ++ [usr] })

/-- Modelled from the spec: "update last-login marker". -/
def DB.UpdateUserLastLogin (arg : UpdateUserLastLoginParams) (db : DB) : Except GoError Unit × DB :=
  (.ok (), { db with users := db.users.map (fun usr =>
    if usr.ID == arg.ID then
      { usr with LastLoginAt := { Time := db.now, Valid := true }, LastLoginIp := arg.LastLoginIp }
    else usr) })

/-- Modelled from the spec: "update externally-authenticated flag". -/
def DB.UpdateUserExternalLogin (arg : UpdateUserExternalLoginParams) (db : DB) :
    Except GoError Unit × DB :=
  (.ok (), { db with users := db.users.map (fun usr =>
    if usr.ID == arg.ID then { usr with ExternalLogin := arg.ExternalLogin } else usr) })

/-- Modelled from the spec: "create refresh token"; the token string is unique. -/
def DB.CreateRefreshToken (arg : CreateRefreshTokenParams) (db : DB) :
    Except GoError RefreshToken × DB :=
  if db.refreshTokens.any (fun row => row.Token == arg.Token) then (.error ErrDuplicateKey, db)
  else
    let row : RefreshToken :=
      { Token := arg.Token, UserID := arg.UserID, ExpiresAt := arg.ExpiresAt, Revoked := false }
    (.ok row, { db with refreshTokens := db.refreshTokens ++ [row] })

/-- A refresh-token row is live: not revoked and not past its expiry. -/
def RefreshToken.live (row : RefreshToken) (now : time.Time) : Bool :=
  !row.Revoked && row.ExpiresAt.Valid && decide (now.nanos < row.ExpiresAt.Time.nanos)

/-- Modelled from the spec: "fetch refresh token by value", which fails for a
token that is "absent, expired, or already consumed" (sections 4.4 and 7). -/
def DB.GetRefreshToken (token : String) (db : DB) : Except GoError RefreshToken × DB :=
  oneRow (db.refreshTokens.find? (fun row => row.Token == token && row.live db.now)) db

/-- Modelled from the spec: "atomically consume (revoke) a refresh token by
value"; "revoking an already-revoked or unknown token is not an error". -/
def DB.RevokeRefreshToken (token : String) (db : DB) : Except GoError Unit × DB :=
  (.ok (), { db with refreshTokens := db.refreshTokens.map (fun row =>
    if row.Token == token then { row with Revoked := true } else row) })

/-- Modelled from the spec: "create role"; the role code is unique. -/
def DB.CreateRole (arg : CreateRoleParams) (db : DB) : Except GoError Role × DB :=
  if db.roles.any (fun role => role.Code == arg.Code) then (.error ErrDuplicateKey, db)
  else
    let role : Role :=
      { ID := nextID (db.roles.map (fun x => x.ID))
        Code := arg.Code
        Name := arg.Name
        Description := arg.Description
        Level := arg.Level
        IsSystem := arg.IsSystem
        Status := arg.Status }
    (.ok role, { db with roles := db.roles ++ [role] })

/-- Modelled from the spec: "delete role", where the "system flag (protects
built-in roles from deletion)": the roles with the identifier are removed,
except those that carry the system flag. The spec does not say that deleting a
protected role reports an error, and this store reports none. -/
def DB.DeleteRole (id : Int) (db : DB) : Except GoError Unit × DB :=
  (.ok (), { db with roles := db.roles.filter (fun role =>
    !(role.ID == id) || (role.IsSystem.Valid && role.IsSystem.Bool)) })

/-- Modelled from the spec: the store over `DB`. -/
def dbStore : Store DB where
  GetUserByUsername := DB.GetUserByUsername
  GetUserByEmail := DB.GetUserByEmail
  GetUserById := DB.GetUserById
  CreateUser := DB.CreateUser
  UpdateUserLastLogin := DB.UpdateUserLastLogin
  UpdateUserExternalLogin := DB.UpdateUserExternalLogin
  GetUserPermissions := DB.GetUserPermissions
  GetRoleById := DB.GetRoleById
  CreateRefreshToken := DB.CreateRefreshToken
  GetRefreshToken := DB.GetRefreshToken
  RevokeRefreshToken := DB.RevokeRefreshToken
  CreateRole := DB.CreateRole
  DeleteRole := DB.DeleteRole

/-- The store `s` with a `RevokeRefreshToken` that reports the storage error
`e` and leaves the store as it is. -/
def Store.failingRevokeRefreshToken {σ : Type} (s : Store σ) (e : GoError) : Store σ :=
  { s with RevokeRefreshToken := fun _ st => (.error e, st) }

/-- The store `s` with a `CreateRefreshToken` that reports the storage error
`e` and leaves the store as it is. -/
def Store.failingCreateRefreshToken {σ : Type} (s : Store σ) (e : GoError) : Store σ :=
  { s with CreateRefreshToken := fun _ st => (.error e, st) }

/-- The store `s` with a `GetUserPermissions` that reports the storage error `e`. -/
def Store.failingGetUserPermissions {σ : Type} (s : Store σ) (e : GoError) : Store σ :=
  { s with GetUserPermissions := fun _ st => (.error e, st) }

/-- The store `s` with a `GetRoleById` that reports the storage error `e`. -/
def Store.failingGetRoleById {σ : Type} (s : Store σ) (e : GoError) : Store σ :=
  { s with GetRoleById := fun _ st => (.error e, st) }

/-- The store `s` with an `UpdateUserLastLogin` that reports the storage error `e`. -/
def Store.failingUpdateUserLastLogin {σ : Type} (s : Store σ) (e : GoError) : Store σ :=
  { s with UpdateUserLastLogin := fun _ st => (.error e, st) }

/-- The store `s` with an `UpdateUserExternalLogin` that reports the storage
error `e` and leaves the store as it is. -/
def Store.failingUpdateUserExternalLogin {σ : Type} (s : Store σ) (e : GoError) : Store σ :=
  { s with UpdateUserExternalLogin := fun _ st => (.error e, st) }

/-- The store `s` with a `GetUserByEmail` that reports the storage error `e`
and leaves the store as it is. -/
def Store.failingGetUserByEmail {σ : Type} (s : Store σ) (e : GoError) : Store σ :=
  { s with GetUserByEmail := fun _ st => (.error e, st) }

/-- The store `s` while an administrator takes every role-permission
assignment away: each permission lookup is answered from the store as it is,
and the assignments are gone right after it. Every operation succeeds, but two
successive lookups for one user disagree. -/
def Store.grantsRemovedAfterRead (s : Store DB) : Store DB :=
  { s with GetUserPermissions := fun userID db =>
      ((s.GetUserPermissions userID db).1,
        { (s.GetUserPermissions userID db).2 with rolePermissions := [] }) }

/-- One call on the store, with its arguments. -/
inductive StoreCall where
  | GetUserByUsername (username : String)
  | GetUserByEmail (email : pgtype.Text)
  | GetUserById (id : Int)
  | CreateUser (arg : CreateUserParams)
  | UpdateUserLastLogin (arg : UpdateUserLastLoginParams)
  | UpdateUserExternalLogin (arg : UpdateUserExternalLoginParams)
  | GetUserPermissions (userID : Int)
  | GetRoleById (id : Int)
  | CreateRefreshToken (arg : CreateRefreshTokenParams)
  | GetRefreshToken (token : String)
  | RevokeRefreshToken (token : String)
  | CreateRole (arg : CreateRoleParams)
  | DeleteRole (id : Int)
deriving DecidableEq, Repr

/-- Whether a store call is a `CreateUser`. -/
def StoreCall.isCreateUser : StoreCall → Bool
  | .CreateUser _ => true
  | _ => false

/-- The call `op` with a log: it does what `op` does and appends `c` to the
list of calls made so far. -/
def recorded {σ α : Type} (c : StoreCall) (op : Call σ α) : Call (σ × List StoreCall) α :=
  fun st => ((op st.1).1, ((op st.1).2, st.2 ++ [c]))

/-- The store `s` with a log of the calls made on it, in order. A use case run
over `s.recording` makes exactly the calls it makes over `s`. -/
def Store.recording {σ : Type} (s : Store σ) : Store (σ × List StoreCall) where
  GetUserByUsername := fun a => recorded (.GetUserByUsername a) (s.GetUserByUsername a)
  GetUserByEmail := fun a => recorded (.GetUserByEmail a) (s.GetUserByEmail a)
  GetUserById := fun a => recorded (.GetUserById a) (s.GetUserById a)
  CreateUser := fun a => recorded (.CreateUser a) (s.CreateUser a)
  UpdateUserLastLogin := fun a => recorded (.UpdateUserLastLogin a) (s.UpdateUserLastLogin a)
  UpdateUserExternalLogin := fun a =>
    recorded (.UpdateUserExternalLogin a) (s.UpdateUserExternalLogin a)
  GetUserPermissions := fun a => recorded (.GetUserPermissions a) (s.GetUserPermissions a)
  GetRoleById := fun a => recorded (.GetRoleById a) (s.GetRoleById a)
  CreateRefreshToken := fun a => recorded (.CreateRefreshToken a) (s.CreateRefreshToken a)
  GetRefreshToken := fun a => recorded (.GetRefreshToken a) (s.GetRefreshToken a)
  RevokeRefreshToken := fun a => recorded (.RevokeRefreshToken a) (s.RevokeRefreshToken a)
  CreateRole := fun a => recorded (.CreateRole a) (s.CreateRole a)
  DeleteRole := fun a => recorded (.DeleteRole a) (s.DeleteRole a)

end repository

/-- The use case `u` run over the recording store: same configuration and
runtime, with the log of store calls beside the store state. -/
def usecase.authUseCase.recording {σ : Type} (u : usecase.authUseCase σ) :
    usecase.authUseCase (σ × List repository.StoreCall) :=
  { store := u.store.recording, config := u.config, rt := u.rt }

/-! ## Fixtures -/

namespace fixture

/-- A password comparison for examples: the hash of `p` is `"hash:" ++ p`. -/
def compare (hash password : String) : Option GoError :=
  if hash == "hash:" ++ password then none
  else some (errors.New "crypto/bcrypt: hashedPassword is not the hash of the given password")

/-- A signer for examples: the token spells out the claims and the key. -/
def sign (claims : jwt.MapClaims) (key : String) : Except GoError String :=
  .ok (toString claims.userId ++ "|" ++ claims.sub ++ "|" ++ ",".intercalate claims.permissions
    ++ "|" ++ toString claims.exp ++ "|" ++ key)

/-- The claims of carol's assertion: an email no stored user has. -/
def carolPayload : idtoken.Payload :=
  { Claims := fun key =>
      if key == "email" then some "carol@example.com"
      else if key == "name" then some "Carol" else none }

/-- The claims of alice's assertion: the email of the stored user alice. -/
def alicePayload : idtoken.Payload :=
  { Claims := fun key =>
      if key == "email" then some "alice@example.com"
      else if key == "name" then some "Alice Liddell" else none }

/-- An assertion validator for examples: for the audience "client-1" it accepts
carol's and alice's assertions; it rejects "google:expired" as expired and
everything else as malformed. -/
def validate (idToken audience : String) : Except GoError idtoken.Payload :=
  if audience == "client-1" && idToken == "google:carol@example.com" then .ok carolPayload
  else if audience == "client-1" && idToken == "google:alice@example.com" then .ok alicePayload
  else if idToken == "google:expired" then .error (errors.New "idtoken: token expired")
  else .error (errors.New "idtoken: invalid token")

/-- A runtime for examples; the clock reads 1000, 1001, 1002, … nanoseconds. -/
def runtime (start : Int) : Runtime where
  CompareHashAndPassword := compare
  SignedString := sign
  Validate := validate
  Now := fun n => ⟨start + n⟩

def cfg : config.Config where
  ServiceName := "identity-service"
  Port := "4001"
  InternalAPIKey := "k"
  DatabaseURL := "postgres://db"
  JWTSecret := "s3cret"
  GoogleClientID := "client-1"
  JWTExpiresIn := "15m"
  RefreshTokenExpiry := "168h"

def noText : pgtype.Text := { String := "", Valid := false }

/-- User "alice": password "wonderland", role 2 (EDITOR). -/
def alice : repository.User where
  ID := 1
  Username := "alice"
  PasswordHash := { String := "hash:wonderland", Valid := true }
  FullName := "Alice Liddell"
  Email := { String := "alice@example.com", Valid := true }
  Phone := noText
  Avatar := noText
  Status := { String := "ACTIVE", Valid := true }
  RoleID := { Int32 := 2, Valid := true }
  ExternalLogin := { Bool := false, Valid := false }
  LastLoginAt := { Time := ⟨0⟩, Valid := false }
  LastLoginIp := noText

/-- User "bob": a federated-only account (no password hash), no role. -/
def bob : repository.User where
  ID := 2
  Username := "bob@example.com"
  PasswordHash := noText
  FullName := "Bob"
  Email := { String := "bob@example.com", Valid := true }
  Phone := noText
  Avatar := noText
  Status := { String := "ACTIVE", Valid := true }
  RoleID := { Int32 := 0, Valid := false }
  ExternalLogin := { Bool := true, Valid := true }
  LastLoginAt := { Time := ⟨0⟩, Valid := false }
  LastLoginIp := noText

/-- User "dave": password "pw", no role. -/
def dave : repository.User where
  ID := 3
  Username := "dave"
  PasswordHash := { String := "hash:pw", Valid := true }
  FullName := "Dave"
  Email := noText
  Phone := noText
  Avatar := noText
  Status := { String := "ACTIVE", Valid := true }
  RoleID := { Int32 := 0, Valid := false }
  ExternalLogin := { Bool := false, Valid := false }
  LastLoginAt := { Time := ⟨0⟩, Valid := false }
  LastLoginIp := noText

def editor : repository.Role where
  ID := 2
  Code := "EDITOR"
  Name := "Editor"
  Description := noText
  Level := { Int32 := 50, Valid := true }
  IsSystem := { Bool := false, Valid := true }
  Status := { String := "ACTIVE", Valid := true }

def docRead : repository.GetUserPermissionsRow :=
  { PermissionID := 10, PermissionCode := "doc.read", DataScope := { String := "all", Valid := true } }

def docWrite : repository.GetUserPermissionsRow :=
  { PermissionID := 11, PermissionCode := "doc.write", DataScope := { String := "own", Valid := true } }

/-- Alice's refresh token "R1", live until nanosecond 5000. -/
def r1 : repository.RefreshToken :=
  { Token := "R1", UserID := 1, ExpiresAt := { Time := ⟨5000⟩, Valid := true }, Revoked := false }

/-- A store state: alice, bob and dave, the EDITOR role with two permissions,
and alice's live refresh token "R1"; the database clock reads 1000. -/
def db0 : repository.DB where
  users := [alice, bob, dave]
  roles := [editor]
  rolePermissions := [(2, docRead), (2, docWrite)]
  refreshTokens := [r1]
  now := ⟨1000⟩

/-- The state `db0` where the store returns the "doc.read" row twice for role 2. -/
def dbDup : repository.DB :=
  { db0 with rolePermissions := [(2, docRead), (2, docRead)] }

/-- The use case over the modelled store, with the example runtime. -/
def auth (start : Int) : usecase.authUseCase repository.DB :=
  usecase.NewAuthUseCase repository.dbStore cfg (runtime start)

/-- The use case over store `s`, with the example runtime. -/
def authOn (s : repository.Store repository.DB) (start : Int) : usecase.authUseCase repository.DB :=
  usecase.NewAuthUseCase s cfg (runtime start)

/-- The modelled store with the last-login update, the role lookup and the
permission lookup all reporting a storage error. -/
def flakyStore : repository.Store repository.DB :=
  ((repository.dbStore.failingUpdateUserLastLogin (errors.New "timeout")).failingGetRoleById
    (errors.New "timeout")).failingGetUserPermissions (errors.New "timeout")

/-- A login request whose body decodes to the given username and password. -/
def loginRequest (username password : String) : http.Request :=
  { Path := "/auth/login", Header := fun _ => "", Cookie := fun _ => none
    Body := some (fun key =>
      if key == "username" then username else if key == "password" then password else "") }

/-- A request with no header or cookie and an undecodable body. -/
def emptyRequest : http.Request :=
  { Path := "/auth/logout", Header := fun _ => "", Cookie := fun _ => none, Body := none }

/-- The row `CreateUser` returns for carol's first federated login on `db0`. -/
def carolCreated : repository.User where
  ID := 4
  Username := "carol@example.com"
  PasswordHash := noText
  FullName := "Carol"
  Email := { String := "carol@example.com", Valid := true }
  Phone := noText
  Avatar := { String := "", Valid := true }
  Status := { String := "ACTIVE", Valid := true }
  RoleID := { Int32 := 0, Valid := false }
  ExternalLogin := { Bool := false, Valid := false }
  LastLoginAt := { Time := ⟨0⟩, Valid := false }
  LastLoginIp := noText

/-- Carol's row in the store after her first federated login on `db0`. -/
def carolStored : repository.User :=
  { carolCreated with
    ExternalLogin := { Bool := true, Valid := true }
    LastLoginAt := { Time := ⟨1000⟩, Valid := true } }

/-- User "erin": her username is the text carol@example.com, she has no email. -/
def erin : repository.User where
  ID := 5
  Username := "carol@example.com"
  PasswordHash := { String := "hash:pw", Valid := true }
  FullName := "Erin"
  Email := noText
  Phone := noText
  Avatar := noText
  Status := { String := "ACTIVE", Valid := true }
  RoleID := { Int32 := 0, Valid := false }
  ExternalLogin := { Bool := false, Valid := false }
  LastLoginAt := { Time := ⟨0⟩, Valid := false }
  LastLoginIp := noText

/-- The state `db0` with erin beside alice, bob and dave: no user has the email
carol@example.com, but the username carol@example.com is taken. -/
def dbTaken : repository.DB :=
  { db0 with users := [alice, bob, dave, erin] }

/-- The built-in role SUPER_ADMIN, with the system flag. -/
def superAdmin : repository.Role where
  ID := 1
  Code := "SUPER_ADMIN"
  Name := "Super Admin"
  Description := noText
  Level := { Int32 := 0, Valid := true }
  IsSystem := { Bool := true, Valid := true }
  Status := { String := "ACTIVE", Valid := true }

/-- The state `db0` with the system role SUPER_ADMIN beside EDITOR. -/
def dbRoles : repository.DB :=
  { db0 with roles := [superAdmin, editor] }

/-- A configuration asking for a one-hour access token and a one-day refresh token. -/
def cfgShort : config.Config :=
  { cfg with JWTExpiresIn := "1h", RefreshTokenExpiry := "24h" }

/-- A request for `path` carrying `key` in the header X-Internal-API-Key. -/
def keyRequest (path key : String) : http.Request :=
  { Path := path
    Header := fun name => if name == "X-Internal-API-Key" then key else ""
    Cookie := fun _ => none
    Body := none }

/-- A handler that answers 200 and counts its invocations in the state. -/
def countingHandler : http.Handler Nat :=
  fun _ n => ({ Status := http.StatusOK, ContentType := "", Cookies := [], Body := .empty }, n + 1)

end fixture


/-! ## Shared lemmas -/

namespace usecase

/-- What `generateTokens` returns, step by step. -/
theorem generateTokens_eq {σ : Type} (u : authUseCase σ) (user : repository.User) (st : σ) :
    u.generateTokens user st =
      match u.rt.SignedString
          (accessClaims user (permissionsOf (u.store.GetUserPermissions user.ID st).1) (u.rt.Now 0))
          u.config.JWTSecret with
      | .error err => (.error err, (u.store.GetUserPermissions user.ID st).2)
      | .ok accessToken =>
        match u.store.CreateRefreshToken (refreshTokenParams user (u.rt.Now 1) (u.rt.Now 2))
            (u.store.GetUserPermissions user.ID st).2 with
        | (.error err, st2) => (.error err, st2)
        | (.ok _, st2) => (.ok (accessToken, refreshTokenString user (u.rt.Now 1)), st2) := by
  unfold authUseCase.generateTokens
  rfl

/-- What `Login` returns once the user is found, has a password hash and the
password matches it. -/
theorem Login_of_credentials {σ : Type} (u : authUseCase σ) (username password : String)
    (st st1 : σ) (user : repository.User)
    (hfound : u.store.GetUserByUsername username st = (.ok user, st1))
    (hhash : user.PasswordHash.Valid = true)
    (hmatch : u.rt.CompareHashAndPassword user.PasswordHash.String password = none) :
    u.Login username password st =
      match u.generateTokens user (u.store.GetUserPermissions user.ID st1).2 with
      | (.error err, st3) => (.error err, st3)
      | (.ok (accessToken, refreshToken), st3) =>
        (.ok (loginResponse accessToken refreshToken user
            (u.roleCodeOf user (u.store.UpdateUserLastLogin
              { ID := user.ID, LastLoginIp := { String := "", Valid := false } } st3).2).1
            (permissionsOf (u.store.GetUserPermissions user.ID st1).1)),
          (u.roleCodeOf user (u.store.UpdateUserLastLogin
              { ID := user.ID, LastLoginIp := { String := "", Valid := false } } st3).2).2) := by
  unfold authUseCase.Login
  simp only [hfound, hhash, hmatch, if_true]

/-- In a list whose rows have distinct keys, looking a member up by its key finds it. -/
theorem find?_key_of_nodup {α : Type} (key : α → Int) (l : List α) (a : α)
    (hmem : a ∈ l) (hnodup : (l.map key).Nodup) :
    l.find? (fun x => key x == key a) = some a := by
  induction l with
  | nil => cases hmem
  | cons b t ih =>
    rw [List.map_cons, List.nodup_cons] at hnodup
    rcases List.mem_cons.mp hmem with h | h
    · subst h
      simp
    · have hne : key b ≠ key a := by
        intro hk
        exact hnodup.1 (hk ▸ List.mem_map_of_mem key h)
      simp [List.find?_cons, hne, ih h hnodup.2]

end usecase

/-! ## Refresh-token rotation -/

/-- Over the modelled store a permission lookup leaves the store as it is. -/
theorem repository.DB.GetUserPermissions_state (userID : Int) (db : repository.DB) :
    (repository.DB.GetUserPermissions userID db).2 = db := by
  unfold repository.DB.GetUserPermissions
  split
  · rfl
  · split <;> rfl

/-- Over the modelled store the role-code lookup leaves the store as it is. -/
theorem usecase.roleCodeOf_state (cfg : config.Config) (rt : Runtime) (user : repository.User)
    (db : repository.DB) :
    ((usecase.NewAuthUseCase repository.dbStore cfg rt).roleCodeOf user db).2 = db := by
  unfold usecase.authUseCase.roleCodeOf
  split
  · simp only [usecase.NewAuthUseCase, repository.dbStore, repository.DB.GetRoleById,
      repository.oneRow]
    cases db.roles.find? (fun role => role.ID == user.RoleID.Int32) <;> rfl
  · rfl

/-- Over the modelled store, successful issuance appends one refresh-token row
whose token string was not in the store before. -/
theorem usecase.generateTokens_state (cfg : config.Config) (rt : Runtime) (user : repository.User)
    (db db' : repository.DB) (pair : String × String)
    (h : (usecase.NewAuthUseCase repository.dbStore cfg rt).generateTokens user db = (.ok pair, db')) :
    db.refreshTokens.any (fun row => row.Token == usecase.refreshTokenString user (rt.Now 1)) = false
      ∧ db' = { db with refreshTokens := db.refreshTokens ++
          [{ Token := usecase.refreshTokenString user (rt.Now 1), UserID := user.ID
             ExpiresAt := { Time := (rt.Now 2).Add (7 * 24 * time.Hour), Valid := true }
             Revoked := false }] } := by
  rw [usecase.generateTokens_eq] at h
  have hst : ((usecase.NewAuthUseCase repository.dbStore cfg rt).store.GetUserPermissions user.ID db).2
      = db := repository.DB.GetUserPermissions_state user.ID db
  rw [hst] at h
  split at h
  · simp at h
  · simp only [usecase.NewAuthUseCase, repository.dbStore, repository.DB.CreateRefreshToken,
      usecase.refreshTokenParams] at h
    by_cases hany : db.refreshTokens.any
        (fun row => row.Token == usecase.refreshTokenString user (rt.Now 1)) = true
    · simp [hany] at h
    · have hfalse : db.refreshTokens.any
          (fun row => row.Token == usecase.refreshTokenString user (rt.Now 1)) = false := by
        simpa using hany
      simp only [hfalse, Bool.false_eq_true, if_false, Prod.mk.injEq] at h
      exact ⟨hfalse, h.2.symm⟩

/-- Over the modelled store, when every store operation succeeds, a `Refresh`
that returns a token pair consumes the presented token: the next `Refresh` of
the same token fails with "invalid or expired refresh token". -/
theorem usecase.Refresh_consumes_presented_token (cfg : config.Config) (rt rt' : Runtime)
    (db db' : repository.DB) (token : String) (resp : usecase.LoginResponse)
    (h : (usecase.NewAuthUseCase repository.dbStore cfg rt).Refresh token db = (.ok resp, db')) :
    (usecase.NewAuthUseCase repository.dbStore cfg rt').Refresh token db'
      = (.error (errors.New "invalid or expired refresh token"), db') := by
  unfold usecase.authUseCase.Refresh at h
  have e1 : (usecase.NewAuthUseCase repository.dbStore cfg rt).store.GetRefreshToken token db
      = repository.oneRow (db.refreshTokens.find?
          (fun row => row.Token == token && row.live db.now)) db := rfl
  rw [e1] at h
  cases hfind : db.refreshTokens.find? (fun row => row.Token == token && row.live db.now) with
  | none =>
    rw [hfind] at h
    simp [repository.oneRow] at h
  | some row =>
    rw [hfind] at h
    simp only [repository.oneRow] at h
    have e2 : (usecase.NewAuthUseCase repository.dbStore cfg rt).store.GetUserById row.UserID db
        = repository.oneRow (db.users.find? (fun usr => usr.ID == row.UserID)) db := rfl
    rw [e2] at h
    cases huser : db.users.find? (fun usr => usr.ID == row.UserID) with
    | none =>
      rw [huser] at h
      simp [repository.oneRow] at h
    | some user =>
      rw [huser] at h
      simp only [repository.oneRow] at h
      split at h
      · simp at h
      · rename_i accessToken newRefreshToken db3 hg
        obtain ⟨hfresh, hdb3⟩ := usecase.generateTokens_state cfg rt user _ db3 _ hg
        have hrev : ((usecase.NewAuthUseCase repository.dbStore cfg rt).store.RevokeRefreshToken
            token db).2 = { db with refreshTokens := db.refreshTokens.map (fun r =>
              if r.Token == token then { r with Revoked := true } else r) } := rfl
        rw [hrev] at hfresh hdb3
        simp only [Prod.mk.injEq] at h
        have hdb' : db' = db3 := by
          rw [← h.2, usecase.roleCodeOf_state]
          exact repository.DB.GetUserPermissions_state user.ID db3
        have hrowmem : row ∈ db.refreshTokens := List.mem_of_find?_eq_some hfind
        have hrowtok : row.Token = token := by
          have := List.find?_some hfind
          simp only [Bool.and_eq_true, beq_iff_eq] at this
          exact this.1
        have hnone : db'.refreshTokens.find? (fun r => r.Token == token && r.live db'.now) = none := by
          rw [List.find?_eq_none]
          intro r hr hlive
          simp only [Bool.and_eq_true, beq_iff_eq] at hlive
          rw [hdb', hdb3] at hr
          simp only [List.mem_append, List.mem_map, List.mem_singleton] at hr
          rcases hr with ⟨r0, hr0, hr0eq⟩ | hnew
          · by_cases ht : r0.Token = token
            · simp only [ht, beq_self_eq_true, if_true] at hr0eq
              rw [← hr0eq] at hlive
              simp [repository.RefreshToken.live] at hlive
            · have hb : (r0.Token == token) = false := by simpa using ht
              simp only [hb, Bool.false_eq_true, if_false] at hr0eq
              rw [← hr0eq] at hlive
              exact ht hlive.1
          · rw [hnew] at hlive
            simp only [List.any_eq_false, List.mem_map] at hfresh
            apply hfresh { row with Revoked := true }
            · refine ⟨row, hrowmem, ?_⟩
              simp [hrowtok]
            · simp only [beq_iff_eq]
              rw [hrowtok]
              exact hlive.1.symm
        simp [usecase.authUseCase.Refresh, usecase.NewAuthUseCase, repository.dbStore,
          repository.DB.GetRefreshToken, hnone, repository.oneRow]

/-- C1 (the code at the failing input): over a store whose `RevokeRefreshToken`
reports a storage error, `Refresh "R1"` still returns a new token pair, the
token "R1" is not consumed in the resulting store state, and a later
`Refresh "R1"` on that state returns a second token pair instead of failing
with "invalid or expired refresh token". -/
theorem C1_refresh_replays_token_when_revoke_fails :
    ∃ resp1 db1 resp2 db2,
      (fixture.authOn (repository.dbStore.failingRevokeRefreshToken (errors.New "conn reset")) 1000).Refresh
          "R1" fixture.db0 = (.ok resp1, db1)
      ∧ resp1.RefreshToken = "1-1001"
      ∧ fixture.r1 ∈ db1.refreshTokens
      ∧ (fixture.authOn (repository.dbStore.failingRevokeRefreshToken (errors.New "conn reset")) 2000).Refresh
          "R1" db1 = (.ok resp2, db2)
      ∧ resp2.RefreshToken = "1-2001" := by
  refine ⟨_, _, _, _, rfl, ?_, ?_, rfl, ?_⟩
  · decide
  · decide
  · decide

/-- C2: over the modelled store with unique token values, `Refresh` called with
the value of a stored refresh-token row that is revoked or whose expiry is in
the past fails with "invalid or expired refresh token" and leaves the store
unchanged: no access token is returned and no refresh token is created. -/
theorem C2_refresh_rejects_revoked_or_expired (cfg : config.Config) (rt : Runtime)
    (db : repository.DB) (row : repository.RefreshToken)
    (hrow : row ∈ db.refreshTokens)
    (huniq : (db.refreshTokens.map (fun r => r.Token)).Nodup)
    (hdead : row.Revoked = true ∨ row.ExpiresAt.Time.nanos < db.now.nanos) :
    (usecase.NewAuthUseCase repository.dbStore cfg rt).Refresh row.Token db
      = (.error (errors.New "invalid or expired refresh token"), db) := by
  have hnone : db.refreshTokens.find? (fun r => r.Token == row.Token && r.live db.now) = none := by
    rw [List.find?_eq_none]
    intro r hr hlive
    simp only [Bool.and_eq_true, beq_iff_eq] at hlive
    have hEq : r = row := List.inj_on_of_nodup_map huniq hr hrow hlive.1
    subst hEq
    have h2 := hlive.2
    simp only [repository.RefreshToken.live, Bool.and_eq_true, Bool.not_eq_true',
      decide_eq_true_eq] at h2
    rcases hdead with hd | hd
    · rw [hd] at h2
      exact absurd h2.1.1 (by decide)
    · omega
  simp [usecase.authUseCase.Refresh, usecase.NewAuthUseCase, repository.dbStore,
    repository.DB.GetRefreshToken, hnone, repository.oneRow]

/-- Witness for C2: at database time 6000 alice's token "R1" (expiry 5000) is
rejected and the store is unchanged. -/
theorem C2_refresh_rejects_revoked_or_expired_witness :
    (usecase.NewAuthUseCase repository.dbStore fixture.cfg (fixture.runtime 6000)).Refresh
        fixture.r1.Token { fixture.db0 with now := ⟨6000⟩ }
      = (.error (errors.New "invalid or expired refresh token"), { fixture.db0 with now := ⟨6000⟩ }) :=
  C2_refresh_rejects_revoked_or_expired fixture.cfg (fixture.runtime 6000)
    { fixture.db0 with now := ⟨6000⟩ } fixture.r1 (by decide) (by decide) (Or.inr (by decide))

/-! ## Login -/

/-- C3: when the user exists and the password does not match the stored hash,
`Login` returns the error "invalid credentials", which is exactly the error it
returns when the lookup finds no user with the username. -/
theorem C3_wrong_password_same_error_as_unknown_user {σ : Type} (u : usecase.authUseCase σ)
    (username password username' password' : String) (st st1 st' st1' : σ)
    (user : repository.User) (e e' : GoError)
    (hfound : u.store.GetUserByUsername username st = (.ok user, st1))
    (hhash : user.PasswordHash.Valid = true)
    (hwrong : u.rt.CompareHashAndPassword user.PasswordHash.String password = some e)
    (hunknown : u.store.GetUserByUsername username' st' = (.error e', st1')) :
    (u.Login username password st).1 = (u.Login username' password' st').1
      ∧ (u.Login username password st).1 = .error (errors.New "invalid credentials") := by
  simp [usecase.authUseCase.Login, hfound, hhash, hwrong, hunknown]

/-- Witness for C3: alice with a wrong password against the unknown "mallory". -/
theorem C3_wrong_password_same_error_as_unknown_user_witness :
    ((fixture.auth 1000).Login "alice" "guess" fixture.db0).1
        = ((fixture.auth 1000).Login "mallory" "guess" fixture.db0).1
      ∧ ((fixture.auth 1000).Login "alice" "guess" fixture.db0).1
        = .error (errors.New "invalid credentials") :=
  C3_wrong_password_same_error_as_unknown_user (fixture.auth 1000) "alice" "guess" "mallory" "guess"
    fixture.db0 fixture.db0 fixture.db0 fixture.db0 fixture.alice
    (errors.New "crypto/bcrypt: hashedPassword is not the hash of the given password")
    repository.ErrNoRows rfl rfl rfl rfl

/-- C4 (the code at the failing input): for "bob@example.com", an existing
account with no password hash, `Login` fails with "password not set", while for
an unknown username and for a wrong password it fails with
"invalid credentials"; the two messages differ. -/
theorem C4_login_without_password_hash_reveals_account :
    ((fixture.auth 1000).Login "bob@example.com" "guess" fixture.db0).1
        = .error (errors.New "password not set")
      ∧ ((fixture.auth 1000).Login "mallory" "guess" fixture.db0).1
        = .error (errors.New "invalid credentials")
      ∧ ((fixture.auth 1000).Login "alice" "guess" fixture.db0).1
        = .error (errors.New "invalid credentials")
      ∧ ((fixture.auth 1000).Login "bob@example.com" "guess" fixture.db0).1
        ≠ ((fixture.auth 1000).Login "mallory" "guess" fixture.db0).1 := by
  refine ⟨rfl, rfl, rfl, ?_⟩
  intro h
  have h' : (Except.error (errors.New "password not set") : Except GoError usecase.LoginResponse)
      = Except.error (errors.New "invalid credentials") := h
  injection h' with h1
  exact absurd h1 (by decide)

/-! ## Logout -/

/-- C5 (counterexample): after `Logout` of a request carrying alice's live
refresh token "R1", `Refresh "R1"` does not fail: it returns a new token pair. -/
theorem C5_refresh_succeeds_after_logout :
    ∃ resp db1,
      (fixture.auth 1000).Refresh "R1"
          ((http.AuthHandler.Logout ⟨fixture.auth 1000⟩
            { fixture.emptyRequest with Cookie := fun name => if name == "refreshToken" then some "R1" else none }
            fixture.db0).2)
        = (.ok resp, db1)
      ∧ resp.RefreshToken = "1-1001" := by
  refine ⟨_, _, rfl, ?_⟩
  decide

/-- C5 (amended): `Logout` always reports success (status 200) and expires the
"refreshToken" cookie; it leaves the store state as it is, so it revokes
nothing and a `Refresh` of any token after the logout returns what it would
have returned before it. -/
theorem C5_logout_reports_success_and_keeps_store {σ : Type} (h : http.AuthHandler σ)
    (r : http.Request) (st : σ) (t : String) :
    (h.Logout r st).1.Status = http.StatusOK
      ∧ (h.Logout r st).1.Cookies.map (fun c => (c.Name, c.Value, c.MaxAge)) = [("refreshToken", "", -1)]
      ∧ (h.Logout r st).2 = st
      ∧ h.authUsecase.Refresh t (h.Logout r st).2 = h.authUsecase.Refresh t st := by
  refine ⟨rfl, rfl, rfl, rfl⟩

/-! ## Permission claims -/

/-- C6 (counterexample): over a store whose operations all succeed while the
role-permission assignments are taken away between the two permission lookups
of a login, alice's `Login` succeeds with a response that lists doc.read and
doc.write and an access token whose signed claims carry no permission: the
list in the token is not the list in the response. -/
theorem C6_token_and_response_lists_can_differ :
    ∃ resp db1,
      (fixture.authOn repository.dbStore.grantsRemovedAfterRead 1000).Login
          "alice" "wonderland" fixture.db0 = (.ok resp, db1)
      ∧ resp.User.Permissions = ["doc.read", "doc.write"]
      ∧ fixture.sign { userId := 1, sub := "alice", permissions := [], exp := 900 } "s3cret"
        = .ok resp.AccessToken := by
  refine ⟨_, _, rfl, ?_, rfl⟩
  decide

/-- C6 (amended): when the user is found, the password matches, the permission
lookup of `Login` returns the rows `rows`, the lookup inside token issuance
returns the rows `rows'`, signing succeeds and the refresh token is persisted,
`Login` succeeds; the returned access token is the signature of claims whose
"permissions" entry is the list of the codes of `rows'`, the rows resolved at
issuance, and the response's user projection carries the codes of `rows`. The
two lists are the same whenever the two lookups return the same rows. -/
theorem C6_login_permission_claim_is_resolved_set {σ : Type} (u : usecase.authUseCase σ)
    (username password : String) (st st1 st2 st3 : σ) (user : repository.User)
    (rows rows' : List repository.GetUserPermissionsRow) (accessToken : String)
    (row : repository.RefreshToken)
    (hfound : u.store.GetUserByUsername username st = (.ok user, st1))
    (hhash : user.PasswordHash.Valid = true)
    (hmatch : u.rt.CompareHashAndPassword user.PasswordHash.String password = none)
    (hperm : u.store.GetUserPermissions user.ID st1 = (.ok rows, st2))
    (hperm' : u.store.GetUserPermissions user.ID st2 = (.ok rows', st3))
    (hsign : u.rt.SignedString
      { userId := user.ID, sub := user.Username
        permissions := rows'.map (fun p => p.PermissionCode)
        exp := ((u.rt.Now 0).Add (15 * time.Minute)).Unix } u.config.JWTSecret = .ok accessToken)
    (hcreate : (u.store.CreateRefreshToken
      (usecase.refreshTokenParams user (u.rt.Now 1) (u.rt.Now 2)) st3).1 = .ok row) :
    ∃ resp, (u.Login username password st).1 = .ok resp
      ∧ resp.AccessToken = accessToken
      ∧ resp.User.Permissions = rows.map (fun p => p.PermissionCode)
      ∧ resp.User.ID = user.ID
      ∧ (rows' = rows → u.rt.SignedString
          { userId := user.ID, sub := user.Username
            permissions := resp.User.Permissions
            exp := ((u.rt.Now 0).Add (15 * time.Minute)).Unix } u.config.JWTSecret
          = .ok resp.AccessToken) := by
  rw [usecase.Login_of_credentials u username password st st1 user hfound hhash hmatch]
  rw [usecase.generateTokens_eq]
  simp only [hperm, hperm', usecase.permissionsOf, usecase.permissionCodes, usecase.accessClaims,
    hsign]
  rcases hc : u.store.CreateRefreshToken
      (usecase.refreshTokenParams user (u.rt.Now 1) (u.rt.Now 2)) st3 with ⟨res, st4⟩
  rw [hc] at hcreate
  simp only at hcreate
  subst hcreate
  refine ⟨_, rfl, rfl, rfl, rfl, ?_⟩
  intro hsame
  subst hsame
  exact hsign

/-- Witness for C6: alice logs in with her password; both lookups return her
two rows and the token signs the claims with permissions doc.read and doc.write. -/
theorem C6_login_permission_claim_is_resolved_set_witness :
    ∃ resp, ((fixture.auth 1000).Login "alice" "wonderland" fixture.db0).1 = .ok resp
      ∧ resp.AccessToken = "1|alice|doc.read,doc.write|900|s3cret"
      ∧ resp.User.Permissions = [fixture.docRead, fixture.docWrite].map (fun p => p.PermissionCode)
      ∧ resp.User.ID = fixture.alice.ID
      ∧ ([fixture.docRead, fixture.docWrite] = [fixture.docRead, fixture.docWrite] →
        (fixture.auth 1000).rt.SignedString
          { userId := fixture.alice.ID, sub := fixture.alice.Username
            permissions := resp.User.Permissions
            exp := (((fixture.auth 1000).rt.Now 0).Add (15 * time.Minute)).Unix }
          (fixture.auth 1000).config.JWTSecret
          = .ok resp.AccessToken) :=
  C6_login_permission_claim_is_resolved_set (fixture.auth 1000) "alice" "wonderland"
    fixture.db0 fixture.db0 fixture.db0 fixture.db0 fixture.alice
    [fixture.docRead, fixture.docWrite] [fixture.docRead, fixture.docWrite]
    "1|alice|doc.read,doc.write|900|s3cret"
    { Token := "1-1001", UserID := 1
      ExpiresAt := { Time := ⟨604800000001002⟩, Valid := true }, Revoked := false }
    rfl rfl rfl rfl rfl rfl rfl

/-- C7 (counterexample): when the store returns the "doc.read" row twice for
alice, the permission list of the session response carries "doc.read" twice,
and so do the claims signed into the access token: nothing is collapsed. -/
theorem C7_duplicate_rows_are_not_collapsed :
    ∃ resp db1,
      (fixture.auth 1000).Login "alice" "wonderland" fixture.dbDup = (.ok resp, db1)
      ∧ resp.User.Permissions = ["doc.read", "doc.read"]
      ∧ ¬ resp.User.Permissions.Nodup
      ∧ (fixture.auth 1000).rt.SignedString
          { userId := 1, sub := "alice", permissions := ["doc.read", "doc.read"], exp := 900 }
          "s3cret" = .ok resp.AccessToken := by
  refine ⟨_, _, rfl, ?_, ?_, rfl⟩
  · decide
  · decide

/-- C7 (amended): on a successful `Login`, the permission list of the session
response is the list of the permission codes of the rows the store returned,
row by row in the same order (so of the same length), and the access token is
the signature of claims carrying the codes of the rows of the second lookup in
the same way; the list is free of duplicates exactly when the rows' codes are. -/
theorem C7_permission_list_is_row_codes_in_order {σ : Type} (u : usecase.authUseCase σ)
    (username password : String) (st st1 st2 st3 st' : σ) (user : repository.User)
    (rows rows' : List repository.GetUserPermissionsRow) (resp : usecase.LoginResponse)
    (hfound : u.store.GetUserByUsername username st = (.ok user, st1))
    (hhash : user.PasswordHash.Valid = true)
    (hmatch : u.rt.CompareHashAndPassword user.PasswordHash.String password = none)
    (hperm : u.store.GetUserPermissions user.ID st1 = (.ok rows, st2))
    (hperm' : u.store.GetUserPermissions user.ID st2 = (.ok rows', st3))
    (hlogin : u.Login username password st = (.ok resp, st')) :
    resp.User.Permissions = rows.map (fun p => p.PermissionCode)
      ∧ resp.User.Permissions.length = rows.length
      ∧ (resp.User.Permissions.Nodup ↔ (rows.map (fun p => p.PermissionCode)).Nodup)
      ∧ u.rt.SignedString
          { userId := user.ID, sub := user.Username
            permissions := rows'.map (fun p => p.PermissionCode)
            exp := ((u.rt.Now 0).Add (15 * time.Minute)).Unix } u.config.JWTSecret
          = .ok resp.AccessToken := by
  rw [usecase.Login_of_credentials u username password st st1 user hfound hhash hmatch,
    usecase.generateTokens_eq] at hlogin
  simp only [hperm, hperm', usecase.permissionsOf, usecase.permissionCodes,
    usecase.accessClaims] at hlogin
  rcases hs : u.rt.SignedString
      { userId := user.ID, sub := user.Username
        permissions := rows'.map (fun p => p.PermissionCode)
        exp := ((u.rt.Now 0).Add (15 * time.Minute)).Unix } u.config.JWTSecret with e | tok
  · rw [hs] at hlogin
    simp at hlogin
  · rw [hs] at hlogin
    rcases hc : u.store.CreateRefreshToken
        (usecase.refreshTokenParams user (u.rt.Now 1) (u.rt.Now 2)) st3 with ⟨res, st4⟩
    rw [hc] at hlogin
    cases res with
    | error e => simp at hlogin
    | ok created =>
      simp only [Prod.mk.injEq, Except.ok.injEq] at hlogin
      rw [← hlogin.1]
      simp [usecase.loginResponse]

/-- Witness for C7: alice's login over the store with the duplicated row. -/
theorem C7_permission_list_is_row_codes_in_order_witness :
    (usecase.loginResponse "1|alice|doc.read,doc.read|900|s3cret" "1-1001" fixture.alice "EDITOR"
        ["doc.read", "doc.read"]).User.Permissions
      = [fixture.docRead, fixture.docRead].map (fun p => p.PermissionCode) :=
  (C7_permission_list_is_row_codes_in_order (fixture.auth 1000) "alice" "wonderland"
    fixture.dbDup fixture.dbDup fixture.dbDup fixture.dbDup
    ((fixture.auth 1000).Login "alice" "wonderland" fixture.dbDup).2 fixture.alice
    [fixture.docRead, fixture.docRead] [fixture.docRead, fixture.docRead]
    (usecase.loginResponse "1|alice|doc.read,doc.read|900|s3cret" "1-1001" fixture.alice "EDITOR"
      ["doc.read", "doc.read"])
    rfl rfl rfl rfl rfl rfl).1

/-- C8: over the modelled store with unique user identifiers, for a user with
no role assigned and a matching password: permission resolution returns the
empty list without an error; every successful `Login` carries an empty
permission list and an empty role code; and `Login` does succeed, with the
empty permission list also in the signed claims, as soon as the access token
is signed and the refresh token string is not yet in the store. -/
theorem C8_login_without_role_has_no_permissions (cfg : config.Config) (rt : Runtime)
    (db : repository.DB) (username password : String) (user : repository.User)
    (hfound : db.users.find? (fun usr => usr.Username == username) = some user)
    (hids : (db.users.map (fun usr => usr.ID)).Nodup)
    (hnorole : user.RoleID.Valid = false)
    (hhash : user.PasswordHash.Valid = true)
    (hmatch : rt.CompareHashAndPassword user.PasswordHash.String password = none) :
    repository.dbStore.GetUserPermissions user.ID db = (.ok [], db)
      ∧ (∀ resp db', (usecase.NewAuthUseCase repository.dbStore cfg rt).Login username password db
            = (.ok resp, db') → resp.User.Permissions = [] ∧ resp.User.Role = "")
      ∧ (∀ accessToken,
          rt.SignedString { userId := user.ID, sub := user.Username, permissions := []
                            exp := ((rt.Now 0).Add (15 * time.Minute)).Unix } cfg.JWTSecret
            = .ok accessToken →
          db.refreshTokens.any (fun row => row.Token == usecase.refreshTokenString user (rt.Now 1))
            = false →
          ∃ db', (usecase.NewAuthUseCase repository.dbStore cfg rt).Login username password db
            = (.ok (usecase.loginResponse accessToken (usecase.refreshTokenString user (rt.Now 1))
                user "" []), db')) := by
  have hmem : user ∈ db.users := List.mem_of_find?_eq_some hfound
  have hbyid : db.users.find? (fun usr => usr.ID == user.ID) = some user :=
    usecase.find?_key_of_nodup (fun usr => usr.ID) db.users user hmem hids
  have hperms : repository.dbStore.GetUserPermissions user.ID db = (.ok [], db) := by
    simp [repository.dbStore, repository.DB.GetUserPermissions, hbyid, hnorole]
  have hlookup : (usecase.NewAuthUseCase repository.dbStore cfg rt).store.GetUserByUsername
      username db = (.ok user, db) := by
    simp [usecase.NewAuthUseCase, repository.dbStore, repository.DB.GetUserByUsername, hfound,
      repository.oneRow]
  have hlogin := usecase.Login_of_credentials (usecase.NewAuthUseCase repository.dbStore cfg rt)
    username password db db user hlookup hhash hmatch
  have hperms' : (usecase.NewAuthUseCase repository.dbStore cfg rt).store.GetUserPermissions
      user.ID db = (.ok [], db) := hperms
  rw [usecase.generateTokens_eq] at hlogin
  simp only [hperms', usecase.permissionsOf, usecase.permissionCodes, usecase.accessClaims,
    List.map_nil, usecase.authUseCase.roleCodeOf, hnorole] at hlogin
  refine ⟨hperms, ?_, ?_⟩
  · intro resp db' hok
    rw [hlogin] at hok
    rcases hs : (usecase.NewAuthUseCase repository.dbStore cfg rt).rt.SignedString
        { userId := user.ID, sub := user.Username, permissions := []
          exp := (((usecase.NewAuthUseCase repository.dbStore cfg rt).rt.Now 0).Add
            (15 * time.Minute)).Unix }
        (usecase.NewAuthUseCase repository.dbStore cfg rt).config.JWTSecret with e | tok
    · rw [hs] at hok
      simp at hok
    · rw [hs] at hok
      rcases hc : (usecase.NewAuthUseCase repository.dbStore cfg rt).store.CreateRefreshToken
          (usecase.refreshTokenParams user
            ((usecase.NewAuthUseCase repository.dbStore cfg rt).rt.Now 1)
            ((usecase.NewAuthUseCase repository.dbStore cfg rt).rt.Now 2)) db with ⟨res, db1⟩
      rw [hc] at hok
      cases res with
      | error e => simp at hok
      | ok created =>
        simp only [Prod.mk.injEq, Except.ok.injEq] at hok
        rw [← hok.1]
        simp [usecase.loginResponse]
  · intro accessToken hsign hfresh
    have hsign' : (usecase.NewAuthUseCase repository.dbStore cfg rt).rt.SignedString
        { userId := user.ID, sub := user.Username, permissions := []
          exp := (((usecase.NewAuthUseCase repository.dbStore cfg rt).rt.Now 0).Add
            (15 * time.Minute)).Unix }
        (usecase.NewAuthUseCase repository.dbStore cfg rt).config.JWTSecret = .ok accessToken :=
      hsign
    have hcreate : (usecase.NewAuthUseCase repository.dbStore cfg rt).store.CreateRefreshToken
        (usecase.refreshTokenParams user
          ((usecase.NewAuthUseCase repository.dbStore cfg rt).rt.Now 1)
          ((usecase.NewAuthUseCase repository.dbStore cfg rt).rt.Now 2)) db
        = (.ok { Token := usecase.refreshTokenString user (rt.Now 1), UserID := user.ID
                 ExpiresAt := { Time := (rt.Now 2).Add (7 * 24 * time.Hour), Valid := true }
                 Revoked := false },
           { db with refreshTokens := db.refreshTokens ++
              [{ Token := usecase.refreshTokenString user (rt.Now 1), UserID := user.ID
                 ExpiresAt := { Time := (rt.Now 2).Add (7 * 24 * time.Hour), Valid := true }
                 Revoked := false }] }) := by
      simp only [usecase.NewAuthUseCase, repository.dbStore, repository.DB.CreateRefreshToken,
        usecase.refreshTokenParams, hfresh]
      rfl
    rw [hlogin, hsign']
    simp only [hcreate]
    exact ⟨_, rfl⟩

/-- Witness for C8: dave has no role; his login succeeds with no permission
and an empty role code. -/
theorem C8_login_without_role_has_no_permissions_witness :
    repository.dbStore.GetUserPermissions fixture.dave.ID fixture.db0 = (.ok [], fixture.db0)
      ∧ ((fixture.auth 1000).Login "dave" "pw" fixture.db0).1
        = .ok (usecase.loginResponse "3|dave||900|s3cret" "3-1001" fixture.dave "" []) :=
  ⟨(C8_login_without_role_has_no_permissions fixture.cfg (fixture.runtime 1000) fixture.db0
      "dave" "pw" fixture.dave rfl (by decide) rfl rfl rfl).1,
   ((C8_login_without_role_has_no_permissions fixture.cfg (fixture.runtime 1000) fixture.db0
      "dave" "pw" fixture.dave rfl (by decide) rfl rfl rfl).2.2
      "3|dave||900|s3cret" rfl rfl).elim (fun _ hl => congrArg Prod.fst hl)⟩

/-! ## Best-effort steps and error propagation -/

/-- C9: for a user that is found and whose password matches, `Login` returns
the error `e` exactly when token issuance (`generateTokens`) returns `e`, and
issuance fails exactly when signing the access token or persisting the refresh
token fails. The store is arbitrary, so whatever the last-login update, the
role lookup and the permission lookups return, they do not make `Login` fail;
and on success a user without a role, or whose role lookup fails, gets the
empty role code. -/
theorem C9_login_fails_iff_issuance_fails {σ : Type} (u : usecase.authUseCase σ)
    (username password : String) (st st1 : σ) (user : repository.User)
    (hfound : u.store.GetUserByUsername username st = (.ok user, st1))
    (hhash : user.PasswordHash.Valid = true)
    (hmatch : u.rt.CompareHashAndPassword user.PasswordHash.String password = none) :
    (∀ e, (u.Login username password st).1 = .error e
        ↔ (u.generateTokens user (u.store.GetUserPermissions user.ID st1).2).1 = .error e)
      ∧ (∀ st2, (∃ e, (u.generateTokens user st2).1 = .error e)
        ↔ ((∃ e, u.rt.SignedString
              (usecase.accessClaims user
                (usecase.permissionsOf (u.store.GetUserPermissions user.ID st2).1) (u.rt.Now 0))
              u.config.JWTSecret = .error e)
          ∨ (∃ e, (u.store.CreateRefreshToken
              (usecase.refreshTokenParams user (u.rt.Now 1) (u.rt.Now 2))
              (u.store.GetUserPermissions user.ID st2).2).1 = .error e)))
      ∧ (∀ resp st', u.Login username password st = (.ok resp, st') →
          (user.RoleID.Valid = false
            ∨ ∃ e, (u.store.GetRoleById user.RoleID.Int32
                (u.store.UpdateUserLastLogin
                  { ID := user.ID, LastLoginIp := { String := "", Valid := false } }
                  (u.generateTokens user (u.store.GetUserPermissions user.ID st1).2).2).2).1
                = .error e) →
          resp.User.Role = "") := by
  have hlogin := usecase.Login_of_credentials u username password st st1 user hfound hhash hmatch
  refine ⟨?_, ?_, ?_⟩
  · intro e
    rw [hlogin]
    rcases hg : u.generateTokens user (u.store.GetUserPermissions user.ID st1).2 with ⟨res, st3⟩
    cases res with
    | error e' => simp
    | ok pair => simp
  · intro st2
    rw [usecase.generateTokens_eq]
    rcases hs : u.rt.SignedString
        (usecase.accessClaims user
          (usecase.permissionsOf (u.store.GetUserPermissions user.ID st2).1) (u.rt.Now 0))
        u.config.JWTSecret with e | tok
    · simp
    · rcases hc : u.store.CreateRefreshToken
          (usecase.refreshTokenParams user (u.rt.Now 1) (u.rt.Now 2))
          (u.store.GetUserPermissions user.ID st2).2 with ⟨res, st4⟩
      cases res with
      | error e' => simp
      | ok created => simp
  · intro resp st' hok hrole
    rw [hlogin] at hok
    rcases hg : u.generateTokens user (u.store.GetUserPermissions user.ID st1).2 with ⟨res, st3⟩
    rw [hg] at hok hrole
    cases res with
    | error e' => simp at hok
    | ok pair =>
      simp only [Prod.mk.injEq, Except.ok.injEq] at hok
      rw [← hok.1]
      simp only [usecase.loginResponse, usecase.authUseCase.roleCodeOf]
      rcases hrole with hv | ⟨e, he⟩
      · simp [hv]
      · by_cases hv : user.RoleID.Valid = true
        · rcases hr : u.store.GetRoleById user.RoleID.Int32
              (u.store.UpdateUserLastLogin
                { ID := user.ID, LastLoginIp := { String := "", Valid := false } } st3).2
              with ⟨rres, st5⟩
          rw [hr] at he
          simp only at he
          subst he
          simp [hv]
        · simp [hv]

/-- Witness for C9: over a store whose last-login update, role lookup and
permission lookup all fail, alice's login fails with an error exactly when
issuance fails with it, and a successful response has the empty role code. -/
theorem C9_login_fails_iff_issuance_fails_witness :
    (((fixture.authOn fixture.flakyStore 1000).Login "alice" "wonderland" fixture.db0).1
          = .error repository.ErrDuplicateKey
        ↔ ((fixture.authOn fixture.flakyStore 1000).generateTokens fixture.alice fixture.db0).1
          = .error repository.ErrDuplicateKey)
      ∧ (usecase.loginResponse "1|alice||900|s3cret" "1-1001" fixture.alice "" []).User.Role = "" :=
  ⟨(C9_login_fails_iff_issuance_fails (fixture.authOn fixture.flakyStore 1000) "alice" "wonderland"
      fixture.db0 fixture.db0 fixture.alice rfl rfl rfl).1 repository.ErrDuplicateKey,
   (C9_login_fails_iff_issuance_fails (fixture.authOn fixture.flakyStore 1000) "alice" "wonderland"
      fixture.db0 fixture.db0 fixture.alice rfl rfl rfl).2.2
      (usecase.loginResponse "1|alice||900|s3cret" "1-1001" fixture.alice "" [])
      ((fixture.authOn fixture.flakyStore 1000).Login "alice" "wonderland" fixture.db0).2
      rfl (Or.inr ⟨errors.New "timeout", rfl⟩)⟩

/-- C10 (counterexample): two logins of alice that differ only in the storage
error `CreateRefreshToken` reports return different errors, and the handler
writes different response bodies: each carries the text of its storage error. -/
theorem C10_storage_error_text_reaches_caller :
    ((fixture.authOn (repository.dbStore.failingCreateRefreshToken
          (errors.New "duplicate key value violates unique constraint refresh_tokens_token_key")) 1000).Login
        "alice" "wonderland" fixture.db0).1
      = .error (errors.New "duplicate key value violates unique constraint refresh_tokens_token_key")
    ∧ ((fixture.authOn (repository.dbStore.failingCreateRefreshToken
          (errors.New "dial tcp 10.0.0.5:5432: connect: connection refused")) 1000).Login
        "alice" "wonderland" fixture.db0).1
      = .error (errors.New "dial tcp 10.0.0.5:5432: connect: connection refused")
    ∧ ((http.AuthHandler.Login ⟨fixture.authOn (repository.dbStore.failingCreateRefreshToken
          (errors.New "dial tcp 10.0.0.5:5432: connect: connection refused")) 1000⟩
        (fixture.loginRequest "alice" "wonderland") fixture.db0).1).Body
      = .errorJSON "dial tcp 10.0.0.5:5432: connect: connection refused"
    ∧ ((http.AuthHandler.Login ⟨fixture.authOn (repository.dbStore.failingCreateRefreshToken
          (errors.New "dial tcp 10.0.0.5:5432: connect: connection refused")) 1000⟩
        (fixture.loginRequest "alice" "wonderland") fixture.db0).1).Body
      ≠ ((http.AuthHandler.Login ⟨fixture.authOn (repository.dbStore.failingCreateRefreshToken
          (errors.New "duplicate key value violates unique constraint refresh_tokens_token_key")) 1000⟩
        (fixture.loginRequest "alice" "wonderland") fixture.db0).1).Body := by
  refine ⟨rfl, rfl, rfl, ?_⟩
  decide

/-- C10 (amended): over any store whose `CreateRefreshToken` reports the storage
error `e`, with a signer that succeeds, token issuance returns `e` itself, and
so do `Login` (user found, password matching), `Refresh` (token and owner
found) and `LoginGoogle` (assertion valid, user found by email or created);
the login handler then answers 401 with the text of `e` in the body. -/
theorem C10_storage_error_is_returned_unchanged {σ : Type} (u : usecase.authUseCase σ)
    (e : GoError)
    (hsign : ∀ claims, ∃ tok, u.rt.SignedString claims u.config.JWTSecret = .ok tok)
    (hfail : ∀ arg st, (u.store.CreateRefreshToken arg st).1 = .error e) :
    (∀ user st, (u.generateTokens user st).1 = .error e)
      ∧ (∀ username password st st1 user,
          u.store.GetUserByUsername username st = (.ok user, st1) →
          user.PasswordHash.Valid = true →
          u.rt.CompareHashAndPassword user.PasswordHash.String password = none →
          (u.Login username password st).1 = .error e)
      ∧ (∀ (r : http.Request) req st st1 user,
          r.Body = some req →
          u.store.GetUserByUsername (req "username") st = (.ok user, st1) →
          user.PasswordHash.Valid = true →
          u.rt.CompareHashAndPassword user.PasswordHash.String (req "password") = none →
          (http.AuthHandler.Login ⟨u⟩ r st).1
            = { Status := http.StatusUnauthorized, ContentType := "application/json"
                Cookies := [], Body := .errorJSON e.msg })
      ∧ (∀ token st st1 st2 row user,
          u.store.GetRefreshToken token st = (.ok row, st1) →
          u.store.GetUserById row.UserID st1 = (.ok user, st2) →
          (u.Refresh token st).1 = .error e)
      ∧ (∀ idToken st st1 payload user,
          u.rt.Validate idToken u.config.GoogleClientID = .ok payload →
          u.store.GetUserByEmail
              { String := usecase.claimString payload "email", Valid := true } st = (.ok user, st1) →
          (u.LoginGoogle idToken st).1 = .error e)
      ∧ (∀ idToken st st1 st2 payload e0 user,
          u.rt.Validate idToken u.config.GoogleClientID = .ok payload →
          u.store.GetUserByEmail
              { String := usecase.claimString payload "email", Valid := true } st = (.error e0, st1) →
          u.store.CreateUser (usecase.googleUserParams payload) st1 = (.ok user, st2) →
          (u.LoginGoogle idToken st).1 = .error e) := by
  have hgen : ∀ user st, (u.generateTokens user st).1 = .error e := by
    intro user st
    rw [usecase.generateTokens_eq]
    obtain ⟨tok, htok⟩ := hsign (usecase.accessClaims user
      (usecase.permissionsOf (u.store.GetUserPermissions user.ID st).1) (u.rt.Now 0))
    rw [htok]
    have hf := hfail (usecase.refreshTokenParams user (u.rt.Now 1) (u.rt.Now 2))
      (u.store.GetUserPermissions user.ID st).2
    rcases hc : u.store.CreateRefreshToken
        (usecase.refreshTokenParams user (u.rt.Now 1) (u.rt.Now 2))
        (u.store.GetUserPermissions user.ID st).2 with ⟨res, st2⟩
    rw [hc] at hf
    simp only at hf
    subst hf
    rfl
  have hlogin : ∀ username password st st1 user,
      u.store.GetUserByUsername username st = (.ok user, st1) →
      user.PasswordHash.Valid = true →
      u.rt.CompareHashAndPassword user.PasswordHash.String password = none →
      (u.Login username password st).1 = .error e := by
    intro username password st st1 user hfound hhash hmatch
    rw [usecase.Login_of_credentials u username password st st1 user hfound hhash hmatch]
    have hg := hgen user (u.store.GetUserPermissions user.ID st1).2
    rcases hgt : u.generateTokens user (u.store.GetUserPermissions user.ID st1).2 with ⟨res, st3⟩
    rw [hgt] at hg
    simp only at hg
    subst hg
    rfl
  refine ⟨hgen, hlogin, ?_, ?_, ?_, ?_⟩
  · intro r req st st1 user hbody hfound hhash hmatch
    have hl := hlogin (req "username") (req "password") st st1 user hfound hhash hmatch
    simp only [http.AuthHandler.Login, hbody]
    rw [hl]
    rfl
  · intro token st st1 st2 row user htoken huser
    simp only [usecase.authUseCase.Refresh, htoken, huser]
    have hg := hgen user (u.store.RevokeRefreshToken token st2).2
    rcases hgt : u.generateTokens user (u.store.RevokeRefreshToken token st2).2 with ⟨res, st4⟩
    rw [hgt] at hg
    simp only at hg
    subst hg
    rfl
  · intro idToken st st1 payload user hvalid hfound
    simp only [usecase.authUseCase.LoginGoogle, usecase.authUseCase.findOrCreateGoogleUser, hvalid,
      hfound]
    have hg := hgen user st1
    rcases hgt : u.generateTokens user st1 with ⟨res, st4⟩
    rw [hgt] at hg
    simp only at hg
    subst hg
    rfl
  · intro idToken st st1 st2 payload e0 user hvalid hnotfound hcreated
    simp only [usecase.authUseCase.LoginGoogle, usecase.authUseCase.findOrCreateGoogleUser, hvalid,
      hnotfound, hcreated]
    have hg := hgen user (u.store.UpdateUserExternalLogin
      { ID := user.ID, ExternalLogin := { Bool := true, Valid := true } } st2).2
    rcases hgt : u.generateTokens user (u.store.UpdateUserExternalLogin
      { ID := user.ID, ExternalLogin := { Bool := true, Valid := true } } st2).2 with ⟨res, st4⟩
    rw [hgt] at hg
    simp only at hg
    subst hg
    rfl

/-- Witness for C10: over the store whose `CreateRefreshToken` reports
"connection refused", alice's login and the refresh of "R1" return that error. -/
theorem C10_storage_error_is_returned_unchanged_witness :
    ((fixture.authOn (repository.dbStore.failingCreateRefreshToken
          (errors.New "dial tcp 10.0.0.5:5432: connect: connection refused")) 1000).Login
        "alice" "wonderland" fixture.db0).1
      = .error (errors.New "dial tcp 10.0.0.5:5432: connect: connection refused")
    ∧ ((fixture.authOn (repository.dbStore.failingCreateRefreshToken
          (errors.New "dial tcp 10.0.0.5:5432: connect: connection refused")) 1000).Refresh
        "R1" fixture.db0).1
      = .error (errors.New "dial tcp 10.0.0.5:5432: connect: connection refused") :=
  ⟨(C10_storage_error_is_returned_unchanged
      (fixture.authOn (repository.dbStore.failingCreateRefreshToken
        (errors.New "dial tcp 10.0.0.5:5432: connect: connection refused")) 1000)
      (errors.New "dial tcp 10.0.0.5:5432: connect: connection refused")
      (fun _ => ⟨_, rfl⟩) (fun _ _ => rfl)).2.1
      "alice" "wonderland" fixture.db0 fixture.db0 fixture.alice rfl rfl rfl,
   (C10_storage_error_is_returned_unchanged
      (fixture.authOn (repository.dbStore.failingCreateRefreshToken
        (errors.New "dial tcp 10.0.0.5:5432: connect: connection refused")) 1000)
      (errors.New "dial tcp 10.0.0.5:5432: connect: connection refused")
      (fun _ => ⟨_, rfl⟩) (fun _ _ => rfl)).2.2.2.1
      "R1" fixture.db0 fixture.db0 fixture.db0 fixture.r1 fixture.alice rfl rfl⟩

/-! ## Refresh token strings -/

/-- A decimal digit character has code 48 plus its digit. -/
theorem decimal_digitChar_value (d : Nat) (hd : d < 10) : (Nat.digitChar d).toNat - 48 = d := by
  interval_cases d <;> rfl

/-- A decimal digit character is not the minus sign. -/
theorem decimal_digitChar_ne_minus (d : Nat) (hd : d < 10) : Nat.digitChar d ≠ '-' := by
  interval_cases d <;> decide

/-- Reading the digits `Nat.toDigitsCore` produces gives the number back. -/
theorem toDigitsCore_value (fuel : Nat) : ∀ (n : Nat) (ds : List Char), n < fuel →
    (Nat.toDigitsCore 10 fuel n ds).foldl (fun acc c => 10 * acc + (c.toNat - 48)) 0
      = ds.foldl (fun acc c => 10 * acc + (c.toNat - 48)) n := by
  induction fuel with
  | zero => intro n ds h; omega
  | succ fuel ih =>
    intro n ds h
    simp only [Nat.toDigitsCore]
    split
    · rename_i h0
      have hn : n < 10 := by omega
      simp only [List.foldl_cons, Nat.mul_zero, Nat.zero_add,
        decimal_digitChar_value (n % 10) (Nat.mod_lt n (by decide))]
      rw [Nat.mod_eq_of_lt hn]
    · rename_i h0
      have hlt : n / 10 < fuel := by omega
      rw [ih (n / 10) _ hlt]
      simp only [List.foldl_cons, decimal_digitChar_value (n % 10) (Nat.mod_lt n (by decide))]
      have : 10 * (n / 10) + n % 10 = n := Nat.div_add_mod n 10
      rw [this]

/-- No digit `Nat.toDigitsCore` produces is the minus sign. -/
theorem toDigitsCore_no_minus (fuel : Nat) : ∀ (n : Nat) (ds : List Char),
    (∀ c ∈ ds, c ≠ '-') → ∀ c ∈ Nat.toDigitsCore 10 fuel n ds, c ≠ '-' := by
  induction fuel with
  | zero => intro n ds h c hc; simp only [Nat.toDigitsCore] at hc; exact h c hc
  | succ fuel ih =>
    intro n ds h
    have hds : ∀ c ∈ Nat.digitChar (n % 10) :: ds, c ≠ '-' := by
      intro c hc
      rcases List.mem_cons.mp hc with hc | hc
      · rw [hc]; exact decimal_digitChar_ne_minus _ (Nat.mod_lt n (by decide))
      · exact h c hc
    simp only [Nat.toDigitsCore]
    split
    · exact hds
    · exact ih _ _ hds

/-- The decimal text of a natural number determines it. -/
theorem Nat_repr_injective (a b : Nat) (h : Nat.repr a = Nat.repr b) : a = b := by
  have hd : Nat.toDigits 10 a = Nat.toDigits 10 b := by
    have := congrArg String.data h
    simpa [Nat.repr, List.asString] using this
  have ha := toDigitsCore_value (a + 1) a [] (Nat.lt_succ_self a)
  have hb := toDigitsCore_value (b + 1) b [] (Nat.lt_succ_self b)
  simp only [List.foldl_nil] at ha hb
  unfold Nat.toDigits at hd
  rw [← ha, ← hb, hd]

/-- The decimal text of an integer (`%d`) determines it. -/
theorem Int_toString_injective (a b : Int) (h : toString a = toString b) : a = b := by
  have hminus : ∀ (m k : Nat), toString m ≠ "-" ++ toString k := by
    intro m k hmk
    have hdata := congrArg String.data hmk
    have hmem : '-' ∈ Nat.toDigits 10 m := by
      have : (toString m).data = Nat.toDigits 10 m := rfl
      rw [← this, hdata]
      simp [String.data_append]
    exact toDigitsCore_no_minus (m + 1) m [] (by simp) '-' hmem rfl
  cases a with
  | ofNat m =>
    cases b with
    | ofNat k =>
      have : Nat.repr m = Nat.repr k := h
      rw [Nat_repr_injective m k this]
    | negSucc k => exact absurd h (hminus m (k + 1))
  | negSucc m =>
    cases b with
    | ofNat k => exact absurd h.symm (hminus k (m + 1))
    | negSucc k =>
      have h' : "-" ++ Nat.repr (m + 1) = "-" ++ Nat.repr (k + 1) := h
      have hdata := congrArg String.data h'
      simp only [String.data_append, List.append_cancel_left_eq] at hdata
      have : Nat.repr (m + 1) = Nat.repr (k + 1) := String.ext hdata
      have := Nat_repr_injective _ _ this
      have hmk : m = k := by omega
      rw [hmk]

/-- C11 (counterexample): a login of alice and a refresh of her token, both
made when the clock reads 1001 nanoseconds, mint the same refresh token string
"1-1001": it spells her user identifier 1 and the time, and nothing else. -/
theorem C11_two_issuances_mint_the_same_string :
    ((fixture.auth 1000).Login "alice" "wonderland" fixture.db0).1.toOption.map
        (fun resp => resp.RefreshToken) = some "1-1001"
      ∧ ((fixture.auth 1000).Refresh "R1" fixture.db0).1.toOption.map
        (fun resp => resp.RefreshToken) = some "1-1001"
      ∧ usecase.refreshTokenString fixture.alice ⟨1001⟩
        = toString fixture.alice.ID ++ "-" ++ toString (1001 : Int) := by
  refine ⟨?_, ?_, rfl⟩
  · decide
  · decide

/-- C11 (amended): the refresh token string token issuance mints is the decimal
user identifier, a hyphen and the decimal clock reading in nanoseconds: it is
fixed by the owner's identifier and the issuance time alone and begins with
the identifier; two issuances for the same user identifier mint the same
string exactly when their clock readings are the same. -/
theorem C11_refresh_token_is_user_id_and_time {σ τ : Type} (u : usecase.authUseCase σ)
    (u' : usecase.authUseCase τ) (user user' : repository.User) (st st1 : σ) (st' st1' : τ)
    (pair pair' : String × String)
    (hissued : u.generateTokens user st = (.ok pair, st1))
    (hissued' : u'.generateTokens user' st' = (.ok pair', st1'))
    (hsame : user'.ID = user.ID) :
    pair.2 = toString user.ID ++ "-" ++ toString (u.rt.Now 1).UnixNano
      ∧ (pair'.2 = pair.2 ↔ (u'.rt.Now 1).UnixNano = (u.rt.Now 1).UnixNano) := by
  have hform : ∀ {ρ : Type} (w : usecase.authUseCase ρ) (usr : repository.User) (s s1 : ρ)
      (p : String × String), w.generateTokens usr s = (.ok p, s1) →
      p.2 = toString usr.ID ++ "-" ++ toString (w.rt.Now 1).UnixNano := by
    intro ρ w usr s s1 p hp
    rw [usecase.generateTokens_eq] at hp
    split at hp
    · simp at hp
    · split at hp
      · simp at hp
      · simp only [Prod.mk.injEq, Except.ok.injEq] at hp
        rw [← hp.1]
        rfl
  have h1 := hform u user st st1 pair hissued
  have h2 := hform u' user' st' st1' pair' hissued'
  refine ⟨h1, ?_⟩
  rw [h1, h2, hsame]
  constructor
  · intro heq
    have hdata := congrArg String.data heq
    simp only [String.data_append, List.append_cancel_left_eq] at hdata
    exact Int_toString_injective _ _ (String.ext hdata)
  · intro heq
    rw [heq]

/-- Witness for C11: alice's token issued at clock reading 1001 and one issued
at 2001. -/
theorem C11_refresh_token_is_user_id_and_time_witness :
    ("1|alice|doc.read,doc.write|900|s3cret", "1-1001").2
        = toString fixture.alice.ID ++ "-" ++ toString ((fixture.auth 1000).rt.Now 1).UnixNano
      ∧ (("1|alice|doc.read,doc.write|900|s3cret", "1-2001").2
          = ("1|alice|doc.read,doc.write|900|s3cret", "1-1001").2
        ↔ ((fixture.auth 2000).rt.Now 1).UnixNano = ((fixture.auth 1000).rt.Now 1).UnixNano) :=
  C11_refresh_token_is_user_id_and_time (fixture.auth 1000) (fixture.auth 2000)
    fixture.alice fixture.alice fixture.db0
    ((fixture.auth 1000).generateTokens fixture.alice fixture.db0).2
    fixture.db0 ((fixture.auth 2000).generateTokens fixture.alice fixture.db0).2
    ("1|alice|doc.read,doc.write|900|s3cret", "1-1001")
    ("1|alice|doc.read,doc.write|900|s3cret", "1-2001") rfl rfl rfl

/-! ## Concurrent redemption -/

/-- A `Refresh` is its two lookups followed by its revoke-and-issue steps. -/
theorem usecase.Refresh_eq_lookup_then_rotate {σ : Type} (u : usecase.authUseCase σ)
    (token : String) (st : σ) :
    u.Refresh token st =
      match u.refreshLookup token st with
      | (.error err, st2) => (.error err, st2)
      | (.ok user, st2) => u.refreshRotate token user st2 := by
  unfold usecase.authUseCase.Refresh usecase.authUseCase.refreshLookup
    usecase.authUseCase.refreshRotate
  rcases u.store.GetRefreshToken token st with ⟨r1, st1⟩
  cases r1 with
  | error e => rfl
  | ok row =>
    simp only
    rcases u.store.GetUserById row.UserID st1 with ⟨r2, st2⟩
    cases r2 with
    | error e => rfl
    | ok user => rfl

/-- A race in which the first caller's lookups fail is that failure followed by
the second caller's whole `Refresh`: `refreshRace` runs the steps of `Refresh`. -/
theorem usecase.refreshRace_of_first_lookup_error {σ : Type} (a b : usecase.authUseCase σ)
    (tokenA tokenB : String) (st st1 : σ) (e : GoError)
    (h : a.refreshLookup tokenA st = (.error e, st1)) :
    usecase.refreshRace a b tokenA tokenB st
      = (.error e, (b.Refresh tokenB st1).1, (b.Refresh tokenB st1).2) := by
  rw [usecase.Refresh_eq_lookup_then_rotate]
  unfold usecase.refreshRace
  rw [h]
  simp only
  rcases hb : b.refreshLookup tokenB st1 with ⟨r, st2⟩
  cases r with
  | error e' => rfl
  | ok user => rfl

/-- C12 (the code at the failing input): two callers redeem alice's token "R1"
at the same time, and both make their lookups before either revokes. Both
calls return a new token pair ("1-1001" and "1-2001"), and both new refresh
tokens are live in the resulting store: "R1" is redeemed twice. -/
theorem C12_concurrent_refresh_redeems_token_twice :
    ∃ respA respB db1,
      usecase.refreshRace (fixture.auth 1000) (fixture.auth 2000) "R1" "R1" fixture.db0
        = (.ok respA, .ok respB, db1)
      ∧ respA.RefreshToken = "1-1001"
      ∧ respB.RefreshToken = "1-2001"
      ∧ (db1.refreshTokens.filter (fun row => row.live db1.now)).map (fun row => row.Token)
        = ["1-1001", "1-2001"] := by
  refine ⟨_, _, _, rfl, ?_, ?_, ?_⟩
  · decide
  · decide
  · decide

/-! ## Federated login -/

/-- Over the modelled store, a successful `LoginGoogle` for an email no stored
user has went through `CreateUser`; the response carries the created
identifier, and the users in the final store are those after the creation,
the external-login update and the last-login update for that identifier. -/
theorem usecase.LoginGoogle_created_state (cfg : config.Config) (rt : Runtime)
    (db db' : repository.DB) (idToken : String) (payload : idtoken.Payload)
    (resp : usecase.LoginResponse)
    (hvalid : rt.Validate idToken cfg.GoogleClientID = .ok payload)
    (hunseen : db.users.find? (fun usr =>
      usr.Email.Valid && usr.Email.String == usecase.claimString payload "email") = none)
    (hok : (usecase.NewAuthUseCase repository.dbStore cfg rt).LoginGoogle idToken db
      = (.ok resp, db')) :
    ∃ usr dbc, repository.DB.CreateUser (usecase.googleUserParams payload) db = (.ok usr, dbc)
      ∧ resp.User.ID = usr.ID
      ∧ db'.now = db.now
      ∧ db'.users = (repository.DB.UpdateUserLastLogin
          { ID := usr.ID, LastLoginIp := { String := "", Valid := false } }
          (repository.DB.UpdateUserExternalLogin
            { ID := usr.ID, ExternalLogin := { Bool := true, Valid := true } } dbc).2).2.users := by
  unfold usecase.authUseCase.LoginGoogle at hok
  have hv : (usecase.NewAuthUseCase repository.dbStore cfg rt).rt.Validate idToken
      (usecase.NewAuthUseCase repository.dbStore cfg rt).config.GoogleClientID = .ok payload :=
    hvalid
  rw [hv] at hok
  simp only at hok
  rcases hc : repository.DB.CreateUser (usecase.googleUserParams payload) db with ⟨res, dbc⟩
  have hfc : (usecase.NewAuthUseCase repository.dbStore cfg rt).findOrCreateGoogleUser payload db
      = match res with
        | .error err => (.error err, dbc)
        | .ok usr => (.ok usr, (repository.DB.UpdateUserExternalLogin
            { ID := usr.ID, ExternalLogin := { Bool := true, Valid := true } } dbc).2) := by
    simp only [usecase.authUseCase.findOrCreateGoogleUser, usecase.NewAuthUseCase,
      repository.dbStore, repository.DB.GetUserByEmail, Bool.true_and, hunseen,
      repository.oneRow, hc]
    cases res <;> rfl
  rw [hfc] at hok
  cases res with
  | error e => simp at hok
  | ok usr =>
    simp only at hok
    split at hok
    · simp at hok
    · rename_i accessToken refreshToken db3 hg
      obtain ⟨_, hdb3⟩ := usecase.generateTokens_state cfg rt usr _ db3 _ hg
      simp only [Prod.mk.injEq, Except.ok.injEq] at hok
      refine ⟨usr, dbc, rfl, ?_, ?_, ?_⟩
      · rw [← hok.1]
        rfl
      · rw [← hok.2, usecase.roleCodeOf_state]
        show (repository.DB.GetUserPermissions usr.ID (repository.DB.UpdateUserLastLogin
          { ID := usr.ID, LastLoginIp := { String := "", Valid := false } } db3).2).2.now = db.now
        rw [repository.DB.GetUserPermissions_state, hdb3]
        have hnow : dbc.now = db.now := by
          unfold repository.DB.CreateUser at hc
          split at hc
          · simp at hc
          · simp only [Prod.mk.injEq] at hc
            rw [← hc.2]
        rw [← hnow]
        rfl
      · rw [← hok.2, usecase.roleCodeOf_state]
        show (repository.DB.GetUserPermissions usr.ID (repository.DB.UpdateUserLastLogin
          { ID := usr.ID, LastLoginIp := { String := "", Valid := false } } db3).2).2.users = _
        rw [repository.DB.GetUserPermissions_state, hdb3]
        rfl

/-- C13 (the code at the failing input): over a store whose
`UpdateUserExternalLogin` reports a storage error, `LoginGoogle` for the unseen
email carol@example.com returns success, and the user it created is in the
store without the external-login mark. -/
theorem C13_login_google_succeeds_without_external_mark :
    ∃ resp db1,
      (fixture.authOn (repository.dbStore.failingUpdateUserExternalLogin (errors.New "timeout")) 1000).LoginGoogle
          "google:carol@example.com" fixture.db0 = (.ok resp, db1)
      ∧ resp.User.Username = "carol@example.com"
      ∧ (db1.users.filter (fun usr => usr.ID == resp.User.ID)).map (fun usr => usr.ExternalLogin)
        = [{ Bool := false, Valid := false }] := by
  refine ⟨_, _, rfl, ?_, ?_⟩
  · decide
  · decide

/-- Over the modelled store, token issuance leaves the user rows as they are,
whether it succeeds or fails. -/
theorem usecase.generateTokens_users (cfg : config.Config) (rt : Runtime) (user : repository.User)
    (db : repository.DB) :
    ((usecase.NewAuthUseCase repository.dbStore cfg rt).generateTokens user db).2.users = db.users := by
  rw [usecase.generateTokens_eq]
  have hst : ((usecase.NewAuthUseCase repository.dbStore cfg rt).store.GetUserPermissions user.ID db).2
      = db := repository.DB.GetUserPermissions_state user.ID db
  rw [hst]
  have hcr : ((usecase.NewAuthUseCase repository.dbStore cfg rt).store.CreateRefreshToken
      (usecase.refreshTokenParams user
        ((usecase.NewAuthUseCase repository.dbStore cfg rt).rt.Now 1)
        ((usecase.NewAuthUseCase repository.dbStore cfg rt).rt.Now 2)) db).2.users = db.users := by
    simp only [usecase.NewAuthUseCase, repository.dbStore, repository.DB.CreateRefreshToken]
    split <;> rfl
  split
  · rfl
  · rcases hc : (usecase.NewAuthUseCase repository.dbStore cfg rt).store.CreateRefreshToken
        (usecase.refreshTokenParams user
          ((usecase.NewAuthUseCase repository.dbStore cfg rt).rt.Now 1)
          ((usecase.NewAuthUseCase repository.dbStore cfg rt).rt.Now 2)) db with ⟨r, st2⟩
    rw [hc] at hcr
    cases r <;> exact hcr

/-- Over the modelled store, the steps of `LoginGoogle` after the user is
resolved keep the number of user rows: no user is created or deleted there. -/
theorem usecase.LoginGoogle_found_keeps_users (cfg : config.Config) (rt : Runtime)
    (db : repository.DB) (idToken : String) (payload : idtoken.Payload) (usr : repository.User)
    (hvalid : rt.Validate idToken cfg.GoogleClientID = .ok payload)
    (hfound : db.users.find? (fun usr =>
      usr.Email.Valid && usr.Email.String == usecase.claimString payload "email") = some usr) :
    (usecase.NewAuthUseCase repository.dbStore cfg rt).findOrCreateGoogleUser payload db
        = (.ok usr, db)
      ∧ ((usecase.NewAuthUseCase repository.dbStore cfg rt).LoginGoogle idToken db).2.users.length
        = db.users.length
      ∧ ∀ resp db', (usecase.NewAuthUseCase repository.dbStore cfg rt).LoginGoogle idToken db
          = (.ok resp, db') → resp.User.ID = usr.ID := by
  have hfc : (usecase.NewAuthUseCase repository.dbStore cfg rt).findOrCreateGoogleUser payload db
      = (.ok usr, db) := by
    simp only [usecase.authUseCase.findOrCreateGoogleUser, usecase.NewAuthUseCase,
      repository.dbStore, repository.DB.GetUserByEmail, Bool.true_and, hfound, repository.oneRow]
  have hv : (usecase.NewAuthUseCase repository.dbStore cfg rt).rt.Validate idToken
      (usecase.NewAuthUseCase repository.dbStore cfg rt).config.GoogleClientID = .ok payload :=
    hvalid
  have husers := usecase.generateTokens_users cfg rt usr db
  refine ⟨hfc, ?_, ?_⟩
  · unfold usecase.authUseCase.LoginGoogle
    rw [hv]
    simp only [hfc]
    rcases hg : (usecase.NewAuthUseCase repository.dbStore cfg rt).generateTokens usr db
      with ⟨res, db3⟩
    rw [hg] at husers
    cases res with
    | error e => simpa using congrArg List.length husers
    | ok pair =>
      simp only
      rw [usecase.roleCodeOf_state]
      show (repository.DB.GetUserPermissions usr.ID (repository.DB.UpdateUserLastLogin
        { ID := usr.ID, LastLoginIp := { String := "", Valid := false } } db3).2).2.users.length = _
      rw [repository.DB.GetUserPermissions_state]
      simp only [repository.DB.UpdateUserLastLogin, List.length_map]
      exact congrArg List.length husers
  · intro resp db' hok
    unfold usecase.authUseCase.LoginGoogle at hok
    rw [hv] at hok
    simp only [hfc] at hok
    split at hok
    · simp at hok
    · simp only [Prod.mk.injEq, Except.ok.injEq] at hok
      rw [← hok.1]
      rfl

/-- A search that passes over all of `l` finds the appended row, also after an
update of the rows that keeps the searched property. -/
theorem usecase.find?_map_append_singleton {α : Type} (p : α → Bool) (f : α → α)
    (hp : ∀ x, p (f x) = p x) (l : List α) (a : α) (hnone : l.find? p = none)
    (ha : p a = true) : ((l ++ [a]).map f).find? p = some (f a) := by
  induction l with
  | nil => simp [List.find?_cons, hp, ha]
  | cons b t ih =>
    rw [List.find?_cons] at hnone
    split at hnone
    · cases hnone
    · rename_i hb
      have hfb : p (f b) = false := by rw [hp]; exact hb
      rw [List.cons_append, List.map_cons, List.find?_cons, hfb]
      exact ih hnone

/-- A filter that rejects all of `l` keeps just the appended row, also after an
update of the rows that keeps the filtered property. -/
theorem usecase.filter_map_append_singleton {α : Type} (p : α → Bool) (f : α → α)
    (hp : ∀ x, p (f x) = p x) (l : List α) (a : α) (hnone : l.find? p = none)
    (ha : p a = true) : ((l ++ [a]).map f).filter p = [f a] := by
  induction l with
  | nil => simp [List.filter_cons, hp, ha]
  | cons b t ih =>
    rw [List.find?_cons] at hnone
    split at hnone
    · cases hnone
    · rename_i hb
      have hfb : p (f b) = false := by rw [hp]; exact hb
      rw [List.cons_append, List.map_cons, List.filter_cons, hfb]
      exact ih hnone

/-- Over the modelled store, after a successful `LoginGoogle` asserting an
email no stored user had, the store holds one more user; exactly one user has
the asserted email, and that user has the identifier the response carries, the
email as username, no password hash, status "ACTIVE" and the external-login
mark. -/
theorem usecase.LoginGoogle_created_row (cfg : config.Config) (rt : Runtime)
    (db db' : repository.DB) (idToken email : String) (payload : idtoken.Payload)
    (resp : usecase.LoginResponse)
    (hvalid : rt.Validate idToken cfg.GoogleClientID = .ok payload)
    (hclaim : payload.Claims "email" = some email)
    (hunseen : db.users.find? (fun usr => usr.Email.Valid && usr.Email.String == email) = none)
    (hok : (usecase.NewAuthUseCase repository.dbStore cfg rt).LoginGoogle idToken db
      = (.ok resp, db')) :
    db'.users.length = db.users.length + 1
      ∧ ∃ usr, db'.users.filter (fun usr => usr.Email.Valid && usr.Email.String == email) = [usr]
        ∧ db'.users.find? (fun usr => usr.Email.Valid && usr.Email.String == email) = some usr
        ∧ usr.ID = resp.User.ID
        ∧ usr.Username = email
        ∧ usr.Email = { String := email, Valid := true }
        ∧ usr.PasswordHash.Valid = false
        ∧ usr.Status = { String := "ACTIVE", Valid := true }
        ∧ usr.ExternalLogin = { Bool := true, Valid := true } := by
  have hemail : usecase.claimString payload "email" = email := by
    simp [usecase.claimString, hclaim]
  have hunseen' : db.users.find? (fun usr =>
      usr.Email.Valid && usr.Email.String == usecase.claimString payload "email") = none := by
    rw [hemail]
    exact hunseen
  obtain ⟨usr0, dbc, hc, hid, _, husers⟩ :=
    usecase.LoginGoogle_created_state cfg rt db db' idToken payload resp hvalid hunseen' hok
  unfold repository.DB.CreateUser at hc
  split at hc
  · simp at hc
  · simp only [Prod.mk.injEq, Except.ok.injEq] at hc
    obtain ⟨husr0, hdbc⟩ := hc
    subst husr0
    subst hdbc
    rw [husers]
    simp only [repository.DB.UpdateUserLastLogin, repository.DB.UpdateUserExternalLogin,
      List.length_map, List.length_append, List.length_singleton, true_and, List.map_map]
    refine ⟨_, usecase.filter_map_append_singleton _ _ ?_ _ _ hunseen ?_,
      usecase.find?_map_append_singleton _ _ ?_ _ _ hunseen ?_, ?_⟩
    · intro usr
      simp only [Function.comp]
      split <;> simp
    · simp [usecase.googleUserParams, hemail]
    · intro usr
      simp only [Function.comp]
      split <;> simp
    · simp [usecase.googleUserParams, hemail]
    · rw [hid]
      simp [usecase.googleUserParams, hemail]

/-- Run over a recording store, token issuance logs no `CreateUser` call. -/
theorem usecase.generateTokens_logs_no_CreateUser {σ : Type} (u : usecase.authUseCase σ)
    (user : repository.User) (st : σ) (log : List repository.StoreCall)
    (hlog : log.any repository.StoreCall.isCreateUser = false) :
    (u.recording.generateTokens user (st, log)).2.2.any repository.StoreCall.isCreateUser
      = false := by
  rw [usecase.generateTokens_eq]
  split
  · simp [usecase.authUseCase.recording, repository.Store.recording, repository.recorded, hlog,
      repository.StoreCall.isCreateUser]
  · split <;> rename_i heq <;>
      simp only [usecase.authUseCase.recording, repository.Store.recording, repository.recorded,
        Prod.mk.injEq] at heq <;>
      rw [← heq.2] <;>
      simp [hlog, repository.StoreCall.isCreateUser]

/-- Run over a recording store, the role-code lookup logs no `CreateUser` call. -/
theorem usecase.roleCodeOf_logs_no_CreateUser {σ : Type} (u : usecase.authUseCase σ)
    (user : repository.User) (st : σ) (log : List repository.StoreCall)
    (hlog : log.any repository.StoreCall.isCreateUser = false) :
    (u.recording.roleCodeOf user (st, log)).2.2.any repository.StoreCall.isCreateUser = false := by
  unfold usecase.authUseCase.roleCodeOf
  split
  · split <;> rename_i heq <;>
      simp only [usecase.authUseCase.recording, repository.Store.recording, repository.recorded,
        Prod.mk.injEq] at heq <;>
      rw [← heq.2] <;>
      simp [hlog, repository.StoreCall.isCreateUser]
  · exact hlog

/-- When the lookup by the asserted email finds a user, `LoginGoogle` run over
a recording store logs no `CreateUser` call, and a successful `LoginGoogle`
returns the identifier of the user found. -/
theorem usecase.LoginGoogle_found_makes_no_CreateUser {σ : Type} (u : usecase.authUseCase σ)
    (idToken email : String) (payload : idtoken.Payload) (user : repository.User) (st st1 : σ)
    (log : List repository.StoreCall)
    (hvalid : u.rt.Validate idToken u.config.GoogleClientID = .ok payload)
    (hclaim : payload.Claims "email" = some email)
    (hfound : u.store.GetUserByEmail { String := email, Valid := true } st = (.ok user, st1))
    (hlog : log.any repository.StoreCall.isCreateUser = false) :
    (u.recording.LoginGoogle idToken (st, log)).2.2.any repository.StoreCall.isCreateUser = false
      ∧ ∀ resp st', u.LoginGoogle idToken st = (.ok resp, st') → resp.User.ID = user.ID := by
  have hemail : usecase.claimString payload "email" = email := by
    simp [usecase.claimString, hclaim]
  have hfc : u.findOrCreateGoogleUser payload st = (.ok user, st1) := by
    simp only [usecase.authUseCase.findOrCreateGoogleUser, hemail, hfound]
  have hfcr : u.recording.findOrCreateGoogleUser payload (st, log)
      = (.ok user, (st1, log ++ [.GetUserByEmail { String := email, Valid := true }])) := by
    have hrec : u.recording.store.GetUserByEmail { String := email, Valid := true } (st, log)
        = (.ok user, (st1, log ++ [.GetUserByEmail { String := email, Valid := true }])) := by
      show ((u.store.GetUserByEmail { String := email, Valid := true } st).1,
        ((u.store.GetUserByEmail { String := email, Valid := true } st).2, _)) = _
      rw [hfound]
    simp only [usecase.authUseCase.findOrCreateGoogleUser, hemail, hrec]
  have hvr : u.recording.rt.Validate idToken u.recording.config.GoogleClientID = .ok payload :=
    hvalid
  have hlog1 : (log ++ [repository.StoreCall.GetUserByEmail { String := email, Valid := true }]).any
      repository.StoreCall.isCreateUser = false := by
    simp [hlog, repository.StoreCall.isCreateUser]
  constructor
  · unfold usecase.authUseCase.LoginGoogle
    rw [hvr]
    simp only [hfcr]
    have hgen := usecase.generateTokens_logs_no_CreateUser u user st1 _ hlog1
    split
    · rename_i err st4 heq
      rw [heq] at hgen
      exact hgen
    · rename_i accessToken refreshToken st4 heq
      rw [heq] at hgen
      apply usecase.roleCodeOf_logs_no_CreateUser
      simp only [usecase.authUseCase.recording, repository.Store.recording, repository.recorded]
      simp only at hgen
      simp [hgen, repository.StoreCall.isCreateUser]
  · intro resp st' hok
    unfold usecase.authUseCase.LoginGoogle at hok
    rw [hvalid] at hok
    simp only [hfc] at hok
    split at hok
    · simp at hok
    · simp only [Prod.mk.injEq, Except.ok.injEq] at hok
      rw [← hok.1]
      rfl

/-- C14 (counterexample): the claim fails in both directions. No user has the
email carol@example.com in `dbTaken`, but the text is taken as a username:
the federated login fails with the store's uniqueness error and creates no
user. And alice has the email alice@example.com in `db0`, but when the lookup by
email reports a storage error the federated login creates a second user with
that email. -/
theorem C14_unseen_email_without_user_and_seen_email_with_new_user :
    fixture.dbTaken.users.find? (fun usr =>
        usr.Email.Valid && usr.Email.String == "carol@example.com") = none
      ∧ (fixture.auth 1000).LoginGoogle "google:carol@example.com" fixture.dbTaken
        = (.error repository.ErrDuplicateKey, fixture.dbTaken)
      ∧ fixture.db0.users.filter (fun usr =>
          usr.Email.Valid && usr.Email.String == "alice@example.com") = [fixture.alice]
      ∧ ∃ resp db1,
        (fixture.authOn (repository.dbStore.failingGetUserByEmail (errors.New "timeout")) 1000).LoginGoogle
            "google:alice@example.com" fixture.db0 = (.ok resp, db1)
        ∧ (db1.users.filter (fun usr =>
            usr.Email.Valid && usr.Email.String == "alice@example.com")).map (fun usr => usr.ID)
          = [1, 4] := by
  refine ⟨?_, rfl, ?_, _, _, rfl, ?_⟩
  · decide
  · decide
  · decide

/-- C14 (amended): over every store, when the lookup by the asserted email
finds a user, `LoginGoogle` makes no `CreateUser` call and on success returns
that user's identifier. Over the modelled store, a first `LoginGoogle` with a
verified email no stored user has, when it succeeds, has added exactly one
user, the only one with the asserted email, which is also its username; a
second `LoginGoogle` asserting the same email on the resulting store makes no
`CreateUser` call, adds no user whatever its outcome, and on success returns
the same user identifier. -/
theorem C14_login_google_creates_user_once (cfg : config.Config) (rt rt' : Runtime)
    (db db1 : repository.DB) (idToken idToken' email : String) (payload payload' : idtoken.Payload)
    (resp1 : usecase.LoginResponse) (log : List repository.StoreCall)
    (hvalid : rt.Validate idToken cfg.GoogleClientID = .ok payload)
    (hclaim : payload.Claims "email" = some email)
    (hunseen : db.users.find? (fun usr => usr.Email.Valid && usr.Email.String == email) = none)
    (hfirst : (usecase.NewAuthUseCase repository.dbStore cfg rt).LoginGoogle idToken db
      = (.ok resp1, db1))
    (hvalid' : rt'.Validate idToken' cfg.GoogleClientID = .ok payload')
    (hclaim' : payload'.Claims "email" = some email)
    (hlog : log.any repository.StoreCall.isCreateUser = false) :
    (∀ {σ : Type} (u : usecase.authUseCase σ) (tok : String) (pl : idtoken.Payload)
        (found : repository.User) (st st1 : σ),
        u.rt.Validate tok u.config.GoogleClientID = .ok pl →
        pl.Claims "email" = some email →
        u.store.GetUserByEmail { String := email, Valid := true } st = (.ok found, st1) →
        (u.recording.LoginGoogle tok (st, log)).2.2.any repository.StoreCall.isCreateUser = false
          ∧ ∀ resp st', u.LoginGoogle tok st = (.ok resp, st') → resp.User.ID = found.ID)
      ∧ db1.users.length = db.users.length + 1
      ∧ (db1.users.filter (fun usr => usr.Email.Valid && usr.Email.String == email)).map
          (fun usr => (usr.ID, usr.Username)) = [(resp1.User.ID, email)]
      ∧ ((usecase.NewAuthUseCase repository.dbStore cfg rt').recording.LoginGoogle idToken'
          (db1, log)).2.2.any repository.StoreCall.isCreateUser = false
      ∧ ((usecase.NewAuthUseCase repository.dbStore cfg rt').LoginGoogle idToken' db1).2.users.length
        = db1.users.length
      ∧ ∀ resp2 db2, (usecase.NewAuthUseCase repository.dbStore cfg rt').LoginGoogle idToken' db1
          = (.ok resp2, db2) → resp2.User.ID = resp1.User.ID := by
  obtain ⟨hlen, usr1, hfilter, hfind, hid1, hname, _⟩ :=
    usecase.LoginGoogle_created_row cfg rt db db1 idToken email payload resp1 hvalid hclaim
      hunseen hfirst
  have hemail' : usecase.claimString payload' "email" = email := by
    simp [usecase.claimString, hclaim']
  have hfind' : db1.users.find? (fun usr =>
      usr.Email.Valid && usr.Email.String == usecase.claimString payload' "email") = some usr1 := by
    rw [hemail']
    exact hfind
  obtain ⟨_, hkeep, hsame⟩ :=
    usecase.LoginGoogle_found_keeps_users cfg rt' db1 idToken' payload' usr1 hvalid' hfind'
  have hlookup : (usecase.NewAuthUseCase repository.dbStore cfg rt').store.GetUserByEmail
      { String := email, Valid := true } db1 = (.ok usr1, db1) := by
    simp only [usecase.NewAuthUseCase, repository.dbStore, repository.DB.GetUserByEmail,
      Bool.true_and, hfind, repository.oneRow]
  refine ⟨?_, hlen, ?_, ?_, hkeep, fun resp2 db2 h => (hsame resp2 db2 h).trans hid1⟩
  · intro σ u tok pl found st st1 hv hc hf
    exact usecase.LoginGoogle_found_makes_no_CreateUser u tok email pl found st st1 log hv hc hf hlog
  · rw [hfilter, List.map_cons, List.map_nil, hid1, hname]
  · exact (usecase.LoginGoogle_found_makes_no_CreateUser
      (usecase.NewAuthUseCase repository.dbStore cfg rt') idToken' email payload' usr1 db1 db1 log
      hvalid' hclaim' hlookup hlog).1

/-- Witness for C14: carol's first federated login on `db0` creates user 4; her
second one, a little later, returns user 4 again. -/
theorem C14_login_google_creates_user_once_witness :
    ((fixture.auth 1000).LoginGoogle "google:carol@example.com" fixture.db0).2.users.length
        = fixture.db0.users.length + 1
      ∧ (usecase.loginResponse "4|carol@example.com||900|s3cret" "4-2001" fixture.carolStored
          "" []).User.ID
        = (usecase.loginResponse "4|carol@example.com||900|s3cret" "4-1001" fixture.carolCreated
          "" []).User.ID :=
  ⟨(C14_login_google_creates_user_once fixture.cfg (fixture.runtime 1000) (fixture.runtime 2000)
      fixture.db0 ((fixture.auth 1000).LoginGoogle "google:carol@example.com" fixture.db0).2
      "google:carol@example.com" "google:carol@example.com" "carol@example.com"
      fixture.carolPayload fixture.carolPayload
      (usecase.loginResponse "4|carol@example.com||900|s3cret" "4-1001" fixture.carolCreated "" [])
      [] rfl rfl (by decide) rfl rfl rfl rfl).2.1,
   (C14_login_google_creates_user_once fixture.cfg (fixture.runtime 1000) (fixture.runtime 2000)
      fixture.db0 ((fixture.auth 1000).LoginGoogle "google:carol@example.com" fixture.db0).2
      "google:carol@example.com" "google:carol@example.com" "carol@example.com"
      fixture.carolPayload fixture.carolPayload
      (usecase.loginResponse "4|carol@example.com||900|s3cret" "4-1001" fixture.carolCreated "" [])
      [] rfl rfl (by decide) rfl rfl rfl rfl).2.2.2.2.2
      (usecase.loginResponse "4|carol@example.com||900|s3cret" "4-2001" fixture.carolStored "" [])
      ((fixture.auth 2000).LoginGoogle "google:carol@example.com"
        ((fixture.auth 1000).LoginGoogle "google:carol@example.com" fixture.db0).2).2
      rfl⟩

/-- C15: when validation of the assertion fails with any error, `LoginGoogle`
returns the error "invalid google token" and the store state it was given:
over any store it makes no store call, so the log of a recording store is
left as it was (no lookup, no creation, no token issuance). -/
theorem C15_invalid_assertion_is_generic_and_touches_nothing {σ : Type}
    (u : usecase.authUseCase σ) (idToken : String) (e : GoError) (st : σ)
    (log : List repository.StoreCall)
    (hinvalid : u.rt.Validate idToken u.config.GoogleClientID = .error e) :
    u.LoginGoogle idToken st = (.error (errors.New "invalid google token"), st)
      ∧ u.recording.LoginGoogle idToken (st, log)
        = (.error (errors.New "invalid google token"), (st, log)) := by
  have hrec : u.recording.rt.Validate idToken u.recording.config.GoogleClientID = .error e :=
    hinvalid
  constructor
  · unfold usecase.authUseCase.LoginGoogle
    rw [hinvalid]
  · unfold usecase.authUseCase.LoginGoogle
    rw [hrec]

/-- Witness for C15: an expired and a malformed assertion fail validation with
different errors, and `LoginGoogle` answers both with the same error. -/
theorem C15_invalid_assertion_is_generic_and_touches_nothing_witness :
    (fixture.auth 1000).LoginGoogle "google:expired" fixture.db0
        = (.error (errors.New "invalid google token"), fixture.db0)
      ∧ (fixture.auth 1000).LoginGoogle "garbage" fixture.db0
        = (.error (errors.New "invalid google token"), fixture.db0) :=
  ⟨(C15_invalid_assertion_is_generic_and_touches_nothing (fixture.auth 1000) "google:expired"
      (errors.New "idtoken: token expired") fixture.db0 [] rfl).1,
   (C15_invalid_assertion_is_generic_and_touches_nothing (fixture.auth 1000) "garbage"
      (errors.New "idtoken: invalid token") fixture.db0 [] rfl).1⟩

/-! ## The session response -/

/-- C16: on a successful `Login` of a user whose role lookup returns the role
`role` and whose permission lookup returned `rows`, the user projection of the
response has the role's code, the rows' permission codes in order, the stored
identifier, username and full name, and the avatar and email exactly when the
stored optional field is set. -/
theorem C16_login_response_user_projection {σ : Type} (u : usecase.authUseCase σ)
    (username password : String) (st st1 st2 st' st5 : σ) (user : repository.User)
    (rows : List repository.GetUserPermissionsRow) (role : repository.Role)
    (resp : usecase.LoginResponse)
    (hfound : u.store.GetUserByUsername username st = (.ok user, st1))
    (hhash : user.PasswordHash.Valid = true)
    (hmatch : u.rt.CompareHashAndPassword user.PasswordHash.String password = none)
    (hperm : u.store.GetUserPermissions user.ID st1 = (.ok rows, st2))
    (hhasrole : user.RoleID.Valid = true)
    (hrole : u.store.GetRoleById user.RoleID.Int32
      (u.store.UpdateUserLastLogin
        { ID := user.ID, LastLoginIp := { String := "", Valid := false } }
        (u.generateTokens user st2).2).2 = (.ok role, st5))
    (hlogin : u.Login username password st = (.ok resp, st')) :
    resp.User.Role = role.Code
      ∧ resp.User.Permissions = rows.map (fun p => p.PermissionCode)
      ∧ resp.User.ID = user.ID
      ∧ resp.User.Username = user.Username
      ∧ resp.User.FullName = user.FullName
      ∧ resp.User.Avatar = (if user.Avatar.Valid then some user.Avatar.String else none)
      ∧ resp.User.Email = (if user.Email.Valid then some user.Email.String else none) := by
  rw [usecase.Login_of_credentials u username password st st1 user hfound hhash hmatch] at hlogin
  simp only [hperm] at hlogin
  rcases hg : u.generateTokens user st2 with ⟨res, st3⟩
  rw [hg] at hlogin hrole
  cases res with
  | error e => simp at hlogin
  | ok pair =>
    simp only [Prod.mk.injEq, Except.ok.injEq] at hlogin
    rw [← hlogin.1]
    simp only [usecase.loginResponse, usecase.authUseCase.roleCodeOf, hhasrole, if_true, hrole,
      usecase.permissionsOf, usecase.permissionCodes, usecase.stringPtr, true_and]
    constructor
    · cases user.Avatar.Valid <;> rfl
    · cases user.Email.Valid <;> rfl

/-- Witness for C16: alice, role EDITOR, permissions doc.read and doc.write. -/
theorem C16_login_response_user_projection_witness :
    (usecase.loginResponse "1|alice|doc.read,doc.write|900|s3cret" "1-1001" fixture.alice
        "EDITOR" ["doc.read", "doc.write"]).User.Role = fixture.editor.Code
      ∧ (usecase.loginResponse "1|alice|doc.read,doc.write|900|s3cret" "1-1001" fixture.alice
          "EDITOR" ["doc.read", "doc.write"]).User.Permissions
        = [fixture.docRead, fixture.docWrite].map (fun p => p.PermissionCode) :=
  ⟨(C16_login_response_user_projection (fixture.auth 1000) "alice" "wonderland"
      fixture.db0 fixture.db0 fixture.db0
      ((fixture.auth 1000).Login "alice" "wonderland" fixture.db0).2
      ((fixture.auth 1000).Login "alice" "wonderland" fixture.db0).2
      fixture.alice [fixture.docRead, fixture.docWrite] fixture.editor
      (usecase.loginResponse "1|alice|doc.read,doc.write|900|s3cret" "1-1001" fixture.alice
        "EDITOR" ["doc.read", "doc.write"])
      rfl rfl rfl rfl rfl rfl rfl).1,
   (C16_login_response_user_projection (fixture.auth 1000) "alice" "wonderland"
      fixture.db0 fixture.db0 fixture.db0
      ((fixture.auth 1000).Login "alice" "wonderland" fixture.db0).2
      ((fixture.auth 1000).Login "alice" "wonderland" fixture.db0).2
      fixture.alice [fixture.docRead, fixture.docWrite] fixture.editor
      (usecase.loginResponse "1|alice|doc.read,doc.write|900|s3cret" "1-1001" fixture.alice
        "EDITOR" ["doc.read", "doc.write"])
      rfl rfl rfl rfl rfl rfl rfl).2.1⟩

/-! ## Token lifetimes -/

/-- Token issuance does not read the configured lifetimes: changing
`JWTExpiresIn` and `RefreshTokenExpiry` changes nothing in what it returns. -/
theorem usecase.generateTokens_ignores_configured_lifetimes {σ : Type} (u : usecase.authUseCase σ)
    (accessLifetime refreshLifetime : String) (user : repository.User) (st : σ) :
    ({ u with config := { u.config with JWTExpiresIn := accessLifetime
                                        RefreshTokenExpiry := refreshLifetime } } :
        usecase.authUseCase σ).generateTokens user st
      = u.generateTokens user st := rfl

/-- C17 (the code at the failing input): with `JWTExpiresIn = "1h"` and
`RefreshTokenExpiry = "24h"` configured, alice's login at clock reading 1000 ns
signs claims with `exp = 900`, the issuance time plus 15 minutes and not plus
one hour (3600), and persists the refresh token with the expiry of the
issuance time plus 7 days, not plus 24 hours. -/
theorem C17_lifetimes_are_fixed_not_configured :
    fixture.cfgShort.JWTExpiresIn = "1h"
      ∧ fixture.cfgShort.RefreshTokenExpiry = "24h"
      ∧ ∃ resp db1,
        (usecase.NewAuthUseCase repository.dbStore fixture.cfgShort (fixture.runtime 1000)).Login
            "alice" "wonderland" fixture.db0 = (.ok resp, db1)
        ∧ fixture.sign { userId := 1, sub := "alice", permissions := ["doc.read", "doc.write"]
                         exp := 900 } "s3cret" = .ok resp.AccessToken
        ∧ (((fixture.runtime 1000).Now 0).Add (15 * time.Minute)).Unix = 900
        ∧ (((fixture.runtime 1000).Now 0).Add (1 * time.Hour)).Unix = 3600
        ∧ (db1.refreshTokens.filter (fun row => row.Token == resp.RefreshToken)).map
            (fun row => row.ExpiresAt)
          = [{ Time := ((fixture.runtime 1000).Now 2).Add (7 * 24 * time.Hour), Valid := true }]
        ∧ ((fixture.runtime 1000).Now 2).Add (7 * 24 * time.Hour)
          ≠ ((fixture.runtime 1000).Now 2).Add (24 * time.Hour) := by
  refine ⟨rfl, rfl, _, _, rfl, rfl, ?_, ?_, ?_, ?_⟩
  · decide
  · decide
  · decide
  · decide

/-! ## Roles -/

/-- C18 (counterexample): over the modelled store, where a role with the system
flag is protected from deletion, `DeleteRole` of the built-in role SUPER_ADMIN
leaves the role in the store and reports success, not a failure: the use case
returns the store's answer and adds no check of its own. -/
theorem C18_delete_of_system_role_reports_no_failure :
    fixture.superAdmin.IsSystem = { Bool := true, Valid := true }
      ∧ fixture.superAdmin ∈ fixture.dbRoles.roles
      ∧ (usecase.NewRoleUseCase repository.dbStore).DeleteRole fixture.superAdmin.ID fixture.dbRoles
        = (.ok (), fixture.dbRoles) := by
  refine ⟨rfl, ?_, rfl⟩
  decide

/-- C18 (amended): `DeleteRole` makes no check of the system flag: over every
store it makes the one store call `DeleteRole id` and returns its result and
the state it leaves, so it fails exactly when the store's delete reports an
error. `CreateRole` passes the store a role with the system flag off, for
every request and over every store; over the modelled store the role it
creates and reports has the flag off and every role with the flag set was in
the store before, and a delete there leaves a role with the flag in the store. -/
theorem C18_delete_role_returns_store_result {σ : Type} (u : usecase.roleUseCase σ) (id : Int)
    (req : usecase.CreateRoleRequest) (st : σ) (log : List repository.StoreCall) :
    u.DeleteRole id st = u.store.DeleteRole id st
      ∧ (usecase.NewRoleUseCase u.store.recording).DeleteRole id (st, log)
        = ((u.store.DeleteRole id st).1, ((u.store.DeleteRole id st).2, log ++ [.DeleteRole id]))
      ∧ (∃ arg, ((usecase.NewRoleUseCase u.store.recording).CreateRole req (st, log)).2.2
            = log ++ [.CreateRole arg]
          ∧ arg.IsSystem = { Bool := false, Valid := true })
      ∧ (∀ (db : repository.DB) resp db',
          (usecase.NewRoleUseCase repository.dbStore).CreateRole req db = (.ok resp, db') →
          resp.IsSystem = false
            ∧ ∀ r ∈ db'.roles, r.IsSystem.Bool = true → r ∈ db.roles)
      ∧ (∀ (db : repository.DB) (role : repository.Role), role ∈ db.roles →
          role.IsSystem.Valid = true → role.IsSystem.Bool = true →
          role ∈ ((usecase.NewRoleUseCase repository.dbStore).DeleteRole id db).2.roles) := by
  refine ⟨rfl, rfl, ?_, ?_, ?_⟩
  · refine ⟨usecase.createRoleParams req, ?_, rfl⟩
    simp only [usecase.roleUseCase.CreateRole, usecase.NewRoleUseCase,
      repository.Store.recording, repository.recorded]
    split <;> rename_i heq <;> simp only [Prod.mk.injEq] at heq <;> rw [← heq.2]
  · intro db resp db' hcreate
    simp only [usecase.roleUseCase.CreateRole, usecase.NewRoleUseCase, repository.dbStore,
      repository.DB.CreateRole] at hcreate
    split at hcreate
    · simp at hcreate
    · rename_i r st1 heq
      simp only [Prod.mk.injEq, Except.ok.injEq] at hcreate
      split at heq
      · simp at heq
      · simp only [Prod.mk.injEq, Except.ok.injEq] at heq
        rw [← hcreate.1, ← hcreate.2, ← heq.1, ← heq.2]
        refine ⟨rfl, ?_⟩
        intro r' hr' hflag
        rcases List.mem_append.mp hr' with h | h
        · exact h
        · rw [List.mem_singleton.mp h] at hflag
          simp [usecase.createRoleParams] at hflag
  · intro db role hmem hvalid hsystem
    simp only [usecase.roleUseCase.DeleteRole, usecase.NewRoleUseCase, repository.dbStore,
      repository.DB.DeleteRole, List.mem_filter]
    exact ⟨hmem, by simp [hvalid, hsystem]⟩

/-! ## Failed logins -/

/-- C19: a `Login` that fails on the credentials (the lookup by username
returns an error, the user has no password hash, or the password does not
match) returns an error and the store state the lookup left; over a recording
store its log grows by the single call `GetUserByUsername username`: no refresh
token is created, the last-login marker is not updated, nothing else is called. -/
theorem C19_failed_login_makes_only_the_user_lookup {σ : Type} (u : usecase.authUseCase σ)
    (username password : String) (st : σ) (log : List repository.StoreCall)
    (hfail : (∃ e, (u.store.GetUserByUsername username st).1 = .error e)
      ∨ ∃ user, (u.store.GetUserByUsername username st).1 = .ok user
        ∧ (user.PasswordHash.Valid = false
          ∨ ∃ e, u.rt.CompareHashAndPassword user.PasswordHash.String password = some e)) :
    (∃ e, (u.Login username password st).1 = .error e)
      ∧ (u.Login username password st).2 = (u.store.GetUserByUsername username st).2
      ∧ (u.recording.Login username password (st, log)).2
        = ((u.store.GetUserByUsername username st).2,
            log ++ [.GetUserByUsername username]) := by
  have hrecLookup : u.recording.store.GetUserByUsername username (st, log)
      = ((u.store.GetUserByUsername username st).1,
          ((u.store.GetUserByUsername username st).2, log ++ [.GetUserByUsername username])) := rfl
  have hrecCompare : u.recording.rt.CompareHashAndPassword = u.rt.CompareHashAndPassword := rfl
  rcases hl : u.store.GetUserByUsername username st with ⟨res, st1⟩
  rw [hl] at hfail hrecLookup
  unfold usecase.authUseCase.Login
  rw [hl, hrecLookup, hrecCompare]
  rcases hfail with ⟨e, he⟩ | ⟨user, hu, hcase⟩
  · simp only at he
    subst he
    exact ⟨⟨_, rfl⟩, rfl, rfl⟩
  · simp only at hu
    subst hu
    rcases hcase with hnohash | ⟨e, hwrong⟩
    · simp [hnohash]
    · by_cases hv : user.PasswordHash.Valid = true
      · simp [hv, hwrong]
      · simp [hv]

/-- Witness for C19: alice's login with a wrong password leaves the modelled
store as it was, and its log holds the one lookup. -/
theorem C19_failed_login_makes_only_the_user_lookup_witness :
    ((fixture.auth 1000).Login "alice" "guess" fixture.db0).2 = fixture.db0
      ∧ ((fixture.auth 1000).recording.Login "alice" "guess" (fixture.db0, [])).2
        = (fixture.db0, [.GetUserByUsername "alice"]) :=
  ⟨(C19_failed_login_makes_only_the_user_lookup (fixture.auth 1000) "alice" "guess" fixture.db0 []
      (Or.inr ⟨fixture.alice, rfl, Or.inr ⟨_, rfl⟩⟩)).2.1,
   (C19_failed_login_makes_only_the_user_lookup (fixture.auth 1000) "alice" "guess" fixture.db0 []
      (Or.inr ⟨fixture.alice, rfl, Or.inr ⟨_, rfl⟩⟩)).2.2⟩

/-! ## The internal API key -/

/-- C20: `InternalAPIKeyMiddleware apiKey` hands the request to the next handler
when the path is "/health" or the header X-Internal-API-Key equals `apiKey`,
and otherwise answers 403 Forbidden itself without running the next handler
(the state is untouched). With a next handler that counts its invocations, the
count goes up exactly when the path is "/health" or the key matches. -/
theorem C20_middleware_forwards_iff_health_or_key {σ : Type} (apiKey : String)
    (next : http.Handler σ) (r : http.Request) (st : σ) (n : Nat) :
    http.InternalAPIKeyMiddleware apiKey next r st
        = (if r.Path = "/health" ∨ r.Header "X-Internal-API-Key" = apiKey then next r st
           else (http.Error "Forbidden: Invalid Internal API Key" http.StatusForbidden, st))
      ∧ (http.Error "Forbidden: Invalid Internal API Key" http.StatusForbidden).Status = 403
      ∧ ((http.InternalAPIKeyMiddleware apiKey fixture.countingHandler r n).2 = n + 1
          ↔ (r.Path = "/health" ∨ r.Header "X-Internal-API-Key" = apiKey))
      ∧ ((http.InternalAPIKeyMiddleware apiKey fixture.countingHandler r n).2 = n
          ↔ ¬ (r.Path = "/health" ∨ r.Header "X-Internal-API-Key" = apiKey)) := by
  have hgen : ∀ {τ : Type} (nx : http.Handler τ) (s : τ),
      http.InternalAPIKeyMiddleware apiKey nx r s
        = (if r.Path = "/health" ∨ r.Header "X-Internal-API-Key" = apiKey then nx r s
           else (http.Error "Forbidden: Invalid Internal API Key" http.StatusForbidden, s)) := by
    intro τ nx s
    unfold http.InternalAPIKeyMiddleware
    by_cases hp : r.Path = "/health"
    · simp [hp]
    · by_cases hk : r.Header "X-Internal-API-Key" = apiKey
      · simp [hp, hk]
      · simp [hp, hk]
  refine ⟨hgen next st, rfl, ?_, ?_⟩
  · rw [hgen]
    by_cases hc : r.Path = "/health" ∨ r.Header "X-Internal-API-Key" = apiKey
    · simp [hc, fixture.countingHandler]
    · simp [hc]
  · rw [hgen]
    by_cases hc : r.Path = "/health" ∨ r.Header "X-Internal-API-Key" = apiKey
    · simp [hc, fixture.countingHandler]
    · simp [hc]
